import Mathlib

/-!
QKart cart service.

A shallow embedding of `src/services/cart.service.js` and a verification of its
contract.

Modelling conventions.

* JavaScript numbers (`cost`, `quantity`, `walletMoney`) are IEEE 754 double-precision
  values (`JSNumber`): NaN, the two infinities and the finite values `± man * 2 ^ exp`, kept
  in the canonical form of the format (`man < 2 ^ 53`, `-1074 ≤ exp ≤ 971`, and
  `2 ^ 52 ≤ man` unless `exp = -1074`). The operators `+`, `-`, `*` and `>` of checkout are
  the operations of the format, rounding to nearest, ties to even, with overflow to an
  infinity and gradual underflow.
* Identifiers (`product._id`, the `productId` argument, `email`) are the strings that
  `toString()` yields, so the comparisons `a.toString() === b.toString()` are string
  equality.
* The Mongo collections are lists of documents in insertion order. `findOne` returns the
  first matching document; `save` writes a document back at the place it was read from;
  `create` appends. Embedded cart items carry the `_id` that the store assigns to a
  sub-document when it is pushed, drawn from the counter `Store.nextId`.
* An asynchronous function is run to completion: every operation maps the store before
  the call to its result and the store after the call, whether it returns or throws.
* The store answers every call, with one exception: it may reject `Cart.create`, the
  failure that `addProductToCart` catches. Whether it does is an argument of that function.
* Sequences of calls are given by `Call` and `Store.Reachable`. Where the wallets of
  several users matter, a `World` adds the Users collection of the identity subsystem
  (described in the data model of the specification; its code is not part of the service)
  and `World.exec` runs one request for the stored user of an email.
-/

set_option maxRecDepth 100000

namespace QKart

/-! ## Data model -/

/-- Constant `NOT_FOUND` of the `http-status` package. -/
def httpStatus.NOT_FOUND : Nat := 404

/-- Constant `BAD_REQUEST` of the `http-status` package. -/
def httpStatus.BAD_REQUEST : Nat := 400

/-- Constant `INTERNAL_SERVER_ERROR` of the `http-status` package. -/
def httpStatus.INTERNAL_SERVER_ERROR : Nat := 500

/-- The error thrown by the service: `new ApiError(statusCode, message)`. -/
structure ApiError where
  statusCode : Nat
  message : String
deriving DecidableEq, Repr

/-! ## JavaScript numbers -/

/-- A JavaScript number: an IEEE 754 double. `finite negative man exp` is the value
`± man * 2 ^ exp`. -/
inductive JSNumber where
  | nan
  | infinity (negative : Bool)
  | finite (negative : Bool) (man : Nat) (exp : Int)
deriving DecidableEq, Repr

/-- The position of the leading bit of `n`, by halving at most `fuel` times. -/
def JSNumber.log2Fuel : Nat → Nat → Nat
  | 0, _ => 0
  | fuel + 1, n => if n < 2 then 0 else JSNumber.log2Fuel fuel (n / 2) + 1

/-- The position of the leading bit of `n`: `2 ^ log2 n ≤ n < 2 ^ (log2 n + 1)` for
`n ≠ 0`. -/
def JSNumber.log2 (n : Nat) : Nat := JSNumber.log2Fuel n n

/-- The integer nearest to `m / 2 ^ k`, the even one of the two when `m / 2 ^ k` lies
half-way. -/
def JSNumber.roundShift (m : Nat) (k : Nat) : Nat :=
  if 2 * (m % 2 ^ k) > 2 ^ k ∨ (2 * (m % 2 ^ k) = 2 ^ k ∧ (m / 2 ^ k) % 2 = 1) then m / 2 ^ k + 1
  else m / 2 ^ k

/-- The double nearest to the exact value `± m * 2 ^ e` (ties to even): 53 significant
bits, the exponent not below -1074 (gradual underflow), an infinity when the rounded value
exceeds the largest finite double. -/
def JSNumber.round (negative : Bool) (m : Nat) (e : Int) : JSNumber :=
  if m = 0 then .finite negative 0 (-1074)
  else
    let e1 : Int := max ((JSNumber.log2 m : Int) + e - 52) (-1074)
    let man : Nat :=
      if e1 ≤ e then m * 2 ^ (e - e1).toNat else JSNumber.roundShift m (e1 - e).toNat
    let man2 : Nat := if man = 2 ^ 53 then 2 ^ 52 else man
    let e2 : Int := if man = 2 ^ 53 then e1 + 1 else e1
    if e2 > 971 then .infinity negative else .finite negative man2 e2

/-- The exact value `± man * 2 ^ exp` as an integer multiple of `2 ^ e`, for `e ≤ exp`. -/
def JSNumber.scaled (negative : Bool) (man : Nat) (exp e : Int) : Int :=
  if negative then -((man * 2 ^ (exp - e).toNat : Nat) : Int)
  else ((man * 2 ^ (exp - e).toNat : Nat) : Int)

/-- The unary minus of JavaScript. -/
def JSNumber.neg : JSNumber → JSNumber
  | .nan => .nan
  | .infinity s => .infinity (!s)
  | .finite s m e => .finite (!s) m e

/-- The operator `+` of JavaScript on numbers: the exact sum, rounded. -/
def JSNumber.add : JSNumber → JSNumber → JSNumber
  | .nan, _ => .nan
  | _, .nan => .nan
  | .infinity s, .infinity t => if s = t then .infinity s else .nan
  | .infinity s, .finite _ _ _ => .infinity s
  | .finite _ _ _, .infinity t => .infinity t
  | .finite s m e, .finite t n f =>
    let sum := JSNumber.scaled s m e (min e f) + JSNumber.scaled t n f (min e f)
    if sum = 0 then .finite (s && t) 0 (-1074)
    else JSNumber.round (decide (sum < 0)) sum.natAbs (min e f)

/-- The operator `-` of JavaScript on numbers. -/
def JSNumber.sub (a b : JSNumber) : JSNumber := JSNumber.add a (JSNumber.neg b)

/-- The operator `*` of JavaScript on numbers: the exact product, rounded. -/
def JSNumber.mul : JSNumber → JSNumber → JSNumber
  | .nan, _ => .nan
  | _, .nan => .nan
  | .infinity s, .infinity t => .infinity (xor s t)
  | .infinity s, .finite t n _ => if n = 0 then .nan else .infinity (xor s t)
  | .finite s m _, .infinity t => if m = 0 then .nan else .infinity (xor s t)
  | .finite s m e, .finite t n f => JSNumber.round (xor s t) (m * n) (e + f)

/-- The operator `>` of JavaScript on numbers: false when an operand is NaN. -/
def JSNumber.gt : JSNumber → JSNumber → Bool
  | .nan, _ => false
  | _, .nan => false
  | .infinity s, .infinity t => !s && t
  | .infinity s, .finite _ _ _ => !s
  | .finite _ _ _, .infinity t => t
  | .finite s m e, .finite t n f =>
    decide (JSNumber.scaled s m e (min e f) > JSNumber.scaled t n f (min e f))

/-- The operator `<=` of JavaScript on numbers: false when an operand is NaN. -/
def JSNumber.le : JSNumber → JSNumber → Bool
  | .nan, _ => false
  | _, .nan => false
  | .infinity s, .infinity t => s || !t
  | .infinity s, .finite _ _ _ => s
  | .finite _ _ _, .infinity t => !t
  | .finite s m e, .finite t n f =>
    decide (JSNumber.scaled s m e (min e f) ≤ JSNumber.scaled t n f (min e f))

/-- The operator `===` of JavaScript on numbers: false when an operand is NaN, true of
the two zeros. -/
def JSNumber.eq : JSNumber → JSNumber → Bool
  | .nan, _ => false
  | _, .nan => false
  | .infinity s, .infinity t => s == t
  | .infinity _, .finite _ _ _ => false
  | .finite _ _ _, .infinity _ => false
  | .finite s m e, .finite t n f =>
    decide (JSNumber.scaled s m e (min e f) = JSNumber.scaled t n f (min e f))

/-- The function `Number.isFinite` of JavaScript. -/
def JSNumber.isFinite : JSNumber → Bool
  | .finite _ _ _ => true
  | _ => false

/-- The function `Number.isNaN` of JavaScript. -/
def JSNumber.isNaN : JSNumber → Bool
  | .nan => true
  | _ => false

/-- The number that the integer literal `n` denotes. -/
def JSNumber.ofNat (n : Nat) : JSNumber := JSNumber.round false n 0

instance (n : Nat) : OfNat JSNumber n := ⟨JSNumber.ofNat n⟩

instance : Neg JSNumber := ⟨JSNumber.neg⟩

/-- The sum of a list of numbers taken from left to right, starting from 0, each partial
sum rounded as `+` rounds it. -/
def JSNumber.sum (xs : List JSNumber) : JSNumber := xs.foldl JSNumber.add 0

/-- A triple in the canonical form of the format: a double. NaN and the infinities are
doubles. -/
def JSNumber.IsDouble : JSNumber → Prop
  | .finite _ man exp => man < 2 ^ 53 ∧ -1074 ≤ exp ∧ exp ≤ 971 ∧ (2 ^ 52 ≤ man ∨ exp = -1074)
  | _ => True

instance : DecidablePred JSNumber.IsDouble := fun x => by
  cases x <;> unfold JSNumber.IsDouble <;> infer_instance

/-- A number that is not NaN and not below zero: the numbers `x` with `0 <= x`. -/
def JSNumber.NonNeg : JSNumber → Prop
  | .nan => False
  | .infinity s => s = false
  | .finite s m _ => s = false ∨ m = 0

/-! ## Documents -/

/-- A document of the `products` collection; the service reads `_id` and `cost`. -/
structure Product where
  _id : String
  cost : JSNumber
deriving DecidableEq, Repr

/-- One line of a cart: an embedded copy of a product and a quantity. -/
structure CartItem where
  _id : Nat
  product : Product
  quantity : JSNumber
deriving DecidableEq, Repr

/-- A document of the `carts` collection. -/
structure Cart where
  email : String
  cartItems : List CartItem
  paymentOption : String
deriving DecidableEq, Repr

/-- The user entity handed to the service. `hasSetNonDefaultAddress` is the value that the
method of that name resolves to. -/
structure User where
  email : String
  walletMoney : JSNumber
  hasSetNonDefaultAddress : Bool
deriving DecidableEq, Repr

/-- The part of `config/config` that the service reads. -/
structure Config where
  default_payment_option : String
deriving DecidableEq, Repr

/-- The document store: the two collections and the supply of sub-document ids. -/
structure Store where
  carts : List Cart
  products : List Product
  nextId : Nat
deriving DecidableEq, Repr

/-- What a service call leaves behind: the value returned or the error thrown, and the
store after the call. -/
structure Outcome where
  result : Except ApiError Cart
  store : Store

/-- What `checkout` leaves behind: as `Outcome`, with the user entity after the call. -/
structure CheckoutOutcome where
  result : Except ApiError Cart
  user : User
  store : Store

/-- The acknowledgement that `Cart.updateOne` resolves to; the service returns it without
looking inside. -/
inductive UpdateResult where
  | acknowledged
deriving DecidableEq, Repr

/-- What `deleteProductFromCart` leaves behind: the acknowledgement returned or the error
thrown, and the store after the call. -/
structure DeleteOutcome where
  result : Except ApiError UpdateResult
  store : Store

/-! ## Store primitives -/

/-- The call `Cart.findOne({ email })`: the first cart of that email. -/
def Cart.findOne (email : String) (s : Store) : Option Cart :=
  s.carts.find? (fun c => decide (c.email = email))

/-- The call `Product.findOne({ _id: productId })`: the first product of that id. -/
def Product.findOne (productId : String) (s : Store) : Option Product :=
  s.products.find? (fun p => decide (p._id = productId))

/-- The call `Cart.create(doc)`: when the store accepts the write the document is appended
to the collection and returned; `none` stands for the rejected write (the `catch`). -/
def Cart.create (accepted : Bool) (doc : Cart) (s : Store) : Option (Cart × Store) :=
  if accepted then some (doc, { s with carts := s.carts ++ [doc] }) else none

/-- Writes `cart` over the first document of its email. -/
def Cart.replace (cart : Cart) : List Cart → List Cart
  | [] => []
  | c :: cs => if c.email = cart.email then cart :: cs else c :: Cart.replace cart cs

/-- The call `cart.save()` on a document obtained from `Cart.findOne` or `Cart.create`:
the stored document (the first of that email) is overwritten. -/
def Cart.save (cart : Cart) (s : Store) : Store :=
  { s with carts := Cart.replace cart s.carts }

/-- The update `$pull: { cartItems: { _id: id } }` on the first cart of `email`: every item
of that `_id` is removed from it. -/
def Cart.pull (email : String) (id : Nat) : List Cart → List Cart
  | [] => []
  | c :: cs =>
    if c.email = email then
      { c with cartItems := c.cartItems.filter (fun item => decide (item._id ≠ id)) } :: cs
    else c :: Cart.pull email id cs

/-- The call `Cart.updateOne({ email }, { $pull: { cartItems: { _id: id } } })`. -/
def Cart.updateOne (email : String) (id : Nat) (s : Store) : UpdateResult × Store :=
  (.acknowledged, { s with carts := Cart.pull email id s.carts })

/-! ## getCartByUser -/

/-- The function `getCartByUser(user)`. -/
def getCartByUser (user : User) (s : Store) : Outcome :=
  match Cart.findOne user.email s with
  | none => ⟨.error ⟨httpStatus.NOT_FOUND, "User does not have a cart"⟩, s⟩
  | some userCart => ⟨.ok userCart, s⟩

/-! ## addProductToCart -/

/-- The scan of lines 73-78: `productIndex` ends as the index of the last item whose
product id is `productId`, or keeps its initial value when there is none. -/
def addProductToCart.scan (productId : String) : List CartItem → Nat → Int → Int
  | [], _, productIndex => productIndex
  | item :: rest, i, productIndex =>
    if productId = item.product._id then addProductToCart.scan productId rest (i + 1) (i : Int)
    else addProductToCart.scan productId rest (i + 1) productIndex

/-- The document handed to `Cart.create` in lines 59-63: the empty cart of the user. -/
def addProductToCart.newCart (config : Config) (user : User) : Cart :=
  { email := user.email, cartItems := [], paymentOption := config.default_payment_option }

/-- Lines 55-67: the user's cart, created when there is none. -/
def addProductToCart.getCart (config : Config) (accepted : Bool) (user : User) (s : Store) :
    Except ApiError (Option Cart × Store) :=
  match Cart.findOne user.email s with
  | some cart => .ok (some cart, s)
  | none =>
    match Cart.create accepted
        { email := user.email, cartItems := [], paymentOption := config.default_payment_option }
        s with
    | some (cart, s1) => .ok (some cart, s1)
    | none => .error ⟨httpStatus.INTERNAL_SERVER_ERROR, "500 Internal server error"⟩

/-- The function `addProductToCart(user, productId, quantity)`. `accepted` tells whether
the store accepts a cart creation, should one be attempted. -/
def addProductToCart (config : Config) (accepted : Bool) (user : User) (productId : String)
    (quantity : JSNumber) (s : Store) : Outcome :=
  match addProductToCart.getCart config accepted user s with
  | .error e => ⟨.error e, s⟩
  | .ok (none, s1) => ⟨.error ⟨httpStatus.INTERNAL_SERVER_ERROR, "User don't have cart"⟩, s1⟩
  | .ok (some cart, s1) =>
    let productIndex := addProductToCart.scan productId cart.cartItems 0 (-1)
    if productIndex == -1 then
      match Product.findOne productId s1 with
      | none => ⟨.error ⟨httpStatus.BAD_REQUEST, "Product doesn't exist in db"⟩, s1⟩
      | some product =>
        let cart1 : Cart :=
          { cart with cartItems := cart.cartItems ++ [⟨s1.nextId, product, quantity⟩] }
        ⟨.ok cart1, Cart.save cart1 { s1 with nextId := s1.nextId + 1 }⟩
    else
      ⟨.error ⟨httpStatus.BAD_REQUEST,
        "Product already in cart. Use the cart sidebar to update or remove product from cart"⟩,
        s1⟩

/-! ## updateProductInCart -/

/-- The loop of lines 132-138: the quantity of the first item whose product id is
`productId` is overwritten; `none` when the loop ends without a match. -/
def updateProductInCart.loop (productId : String) (quantity : JSNumber) :
    List CartItem → Option (List CartItem)
  | [] => none
  | item :: rest =>
    if item.product._id = productId then some ({ item with quantity := quantity } :: rest)
    else (updateProductInCart.loop productId quantity rest).map (fun r => item :: r)

/-- The function `updateProductInCart(user, productId, quantity)`. -/
def updateProductInCart (user : User) (productId : String) (quantity : JSNumber) (s : Store) :
    Outcome :=
  match Cart.findOne user.email s with
  | none =>
    ⟨.error ⟨httpStatus.BAD_REQUEST,
      "User does not have a cart. Use POST to create cart and add a product"⟩, s⟩
  | some cart =>
    match Product.findOne productId s with
    | none => ⟨.error ⟨httpStatus.BAD_REQUEST, "Product doesn't exist in database"⟩, s⟩
    | some _ =>
      match updateProductInCart.loop productId quantity cart.cartItems with
      | some cartItems =>
        let cart1 : Cart := { cart with cartItems := cartItems }
        ⟨.ok cart1, Cart.save cart1 s⟩
      | none => ⟨.error ⟨httpStatus.BAD_REQUEST, "Product not in Cart"⟩, s⟩

/-! ## deleteProductFromCart -/

/-- The function `deleteProductFromCart(user, productId)`. -/
def deleteProductFromCart (user : User) (productId : String) (s : Store) : DeleteOutcome :=
  match Cart.findOne user.email s with
  | none => ⟨.error ⟨httpStatus.BAD_REQUEST, "User does not have cart"⟩, s⟩
  | some cart =>
    let prodInCart := cart.cartItems.filter (fun item => decide (item.product._id = productId))
    match prodInCart with
    | [] => ⟨.error ⟨httpStatus.BAD_REQUEST, "Product not in cart"⟩, s⟩
    | first :: _ =>
      let id := first._id
      let deletedProd := Cart.updateOne user.email id s
      ⟨.ok deletedProd.1, deletedProd.2⟩

/-! ## checkout -/

/-- The loop of lines 217-221: `cartTotal` starts at 0 and accumulates
`cost * quantity` over the items, in the arithmetic of JavaScript numbers. -/
def checkout.cartTotal (cartItems : List CartItem) : JSNumber :=
  cartItems.foldl
    (fun cartTotal item => JSNumber.add cartTotal (JSNumber.mul item.product.cost item.quantity))
    0

/-- The function `checkout(user)`. -/
def checkout (user : User) (s : Store) : CheckoutOutcome :=
  match Cart.findOne user.email s with
  | none => ⟨.error ⟨httpStatus.NOT_FOUND, "User cart not found"⟩, user, s⟩
  | some userCart =>
    if userCart.cartItems.length == 0 then
      ⟨.error ⟨httpStatus.BAD_REQUEST, "user cart is empty"⟩, user, s⟩
    else if user.hasSetNonDefaultAddress == false then
      ⟨.error ⟨httpStatus.BAD_REQUEST, "User address is not set"⟩, user, s⟩
    else
      let cartTotal := checkout.cartTotal userCart.cartItems
      if JSNumber.gt cartTotal user.walletMoney then
        ⟨.error ⟨httpStatus.BAD_REQUEST, "Wallet balance insufficient"⟩, user, s⟩
      else
        let user1 : User := { user with walletMoney := JSNumber.sub user.walletMoney cartTotal }
        let userCart1 : Cart := { userCart with cartItems := [] }
        ⟨.ok userCart1, user1, Cart.save userCart1 s⟩

/-! ## Sequences of calls -/

/-- A call of one of the five functions of the service, with its arguments other than the
user. -/
inductive Call where
  | getCartByUser
  | addProductToCart (config : Config) (accepted : Bool) (productId : String) (quantity : JSNumber)
  | updateProductInCart (productId : String) (quantity : JSNumber)
  | deleteProductFromCart (productId : String)
  | checkout
deriving DecidableEq, Repr

/-- The store after the call `c` made for `user`, whether it returned or threw. -/
def Call.store (c : Call) (user : User) (s : Store) : Store :=
  match c with
  | .getCartByUser => (QKart.getCartByUser user s).store
  | .addProductToCart config accepted productId quantity =>
    (QKart.addProductToCart config accepted user productId quantity s).store
  | .updateProductInCart productId quantity => (QKart.updateProductInCart user productId quantity s).store
  | .deleteProductFromCart productId => (QKart.deleteProductFromCart user productId s).store
  | .checkout => (QKart.checkout user s).store

/-- The user entity that the call `c` saves, if it saves one: only `checkout` calls
`user.save()`, on the path on which it returns. -/
def Call.saved (c : Call) (user : User) (s : Store) : Option User :=
  match c with
  | .checkout =>
    match (QKart.checkout user s).result with
    | .ok _ => some (QKart.checkout user s).user
    | .error _ => none
  | _ => none

/-- The stores that a sequence of calls, made for any users, leads to from `s0`. -/
inductive Store.Reachable (s0 : Store) : Store → Prop where
  | init : Store.Reachable s0 s0
  | step {s : Store} (c : Call) (user : User) (before : Store.Reachable s0 s) :
      Store.Reachable s0 (c.store user s)

/-- Modelled from the spec: the Users collection of the identity subsystem (the User model
is not under src), "User: identified by email (unique, used as the foreign key into
Cart); owns `walletMoney`", next to the store of the service. -/
structure World where
  store : Store
  users : List User
deriving DecidableEq, Repr

/-- Modelled from the spec: the call `user.save()` of the User model (not under src):
the stored user of that email is overwritten. -/
def User.save (user : User) : List User → List User
  | [] => []
  | u :: us => if u.email = user.email then user :: us else u :: User.save user us

/-- Modelled from the spec: one request. The caller resolves the user entity (the stored
user of `email`; without one the service is not called), the call `c` is made for it, and
the entity that the call saved, if any, is written to the Users collection. -/
def World.exec (c : Call) (email : String) (w : World) : World :=
  match w.users.find? (fun u => decide (u.email = email)) with
  | none => w
  | some user =>
    ⟨c.store user w.store,
      match c.saved user w.store with
      | some user1 => User.save user1 w.users
      | none => w.users⟩

/-- The `walletMoney` of the stored user of `email`. -/
def World.wallet (email : String) (w : World) : Option JSNumber :=
  (w.users.find? (fun u => decide (u.email = email))).map User.walletMoney

/-- The worlds that a sequence of requests, all of whose calls satisfy `P`, leads to from
`w0`. -/
inductive World.Reachable (P : Call → Prop) (w0 : World) : World → Prop where
  | init : World.Reachable P w0 w0
  | step {w : World} (c : Call) (email : String) (allowed : P c)
      (before : World.Reachable P w0 w) : World.Reachable P w0 (w.exec c email)

/-! ## Invariants -/

/-- A cart has at most one item per product id. -/
def Cart.UniqueProducts (cart : Cart) : Prop :=
  (cart.cartItems.map (fun item => item.product._id)).Nodup

instance : DecidablePred Cart.UniqueProducts := fun cart => by
  unfold Cart.UniqueProducts; infer_instance

/-- Every cart of the store has at most one item per product id. -/
def Store.UniqueProducts (s : Store) : Prop :=
  ∀ cart ∈ s.carts, cart.UniqueProducts

instance : DecidablePred Store.UniqueProducts := fun s => by
  unfold Store.UniqueProducts; infer_instance

/-- The `_id` of every item in the store was drawn from the id supply: it is below
`nextId`. -/
def Store.FreshIds (s : Store) : Prop :=
  ∀ cart ∈ s.carts, ∀ item ∈ cart.cartItems, item._id < s.nextId

instance : DecidablePred Store.FreshIds := fun s => by
  unfold Store.FreshIds; infer_instance

/-- Every product embedded in an item of a cart has a finite cost that is not negative. -/
def Store.FiniteCosts (s : Store) : Prop :=
  ∀ cart ∈ s.carts, ∀ item ∈ cart.cartItems,
    item.product.cost.isFinite = true ∧ JSNumber.le 0 item.product.cost = true

instance : DecidablePred Store.FiniteCosts := fun s => by
  unfold Store.FiniteCosts; infer_instance

/-! ## Concrete data used in the examples -/

/-- A product costing 100. -/
def exampleProductA : Product := ⟨"p1", 100⟩

/-- A product costing 50. -/
def exampleProductB : Product := ⟨"p2", 50⟩

/-- The configuration of the examples. -/
def exampleConfig : Config := ⟨"PAYMENT_OPTION_DEFAULT"⟩

/-- A cart of total 300 = 100 * 2 + 50 * 2. -/
def exampleCart : Cart :=
  ⟨"a@x.io", [⟨0, exampleProductA, 2⟩, ⟨1, exampleProductB, 2⟩], "PAYMENT_OPTION_DEFAULT"⟩

/-- A store holding `exampleCart` and both products. -/
def exampleStore : Store := ⟨[exampleCart], [exampleProductA, exampleProductB], 2⟩

/-- The owner of `exampleCart`, with 500 in the wallet and an address set. -/
def exampleUser : User := ⟨"a@x.io", 500, true⟩

/-- A cart of total 500 = 100 * 5. -/
def exampleCart500 : Cart := ⟨"b@x.io", [⟨0, exampleProductA, 5⟩], "PAYMENT_OPTION_DEFAULT"⟩

/-- A cart without items. -/
def exampleCartEmpty : Cart := ⟨"c@x.io", [], "PAYMENT_OPTION_DEFAULT"⟩

/-- A store holding three carts and both products. -/
def exampleStore3 : Store :=
  ⟨[exampleCart, exampleCart500, exampleCartEmpty], [exampleProductA, exampleProductB], 3⟩

/-- The owner of `exampleCart500`, with 400 in the wallet and an address set. -/
def exampleUser400 : User := ⟨"b@x.io", 400, true⟩

/-- The owner of `exampleCartEmpty`, with no address set. -/
def exampleUserNoAddress : User := ⟨"c@x.io", 1000, false⟩

/-- A user without a cart. -/
def exampleUserNoCart : User := ⟨"d@x.io", 1000, true⟩

/-- A store whose cart still holds `p1` after `p1` left the Product collection. -/
def exampleStoreStale : Store := ⟨[exampleCart], [exampleProductB], 2⟩

/-- A cart with a single line. -/
def exampleCartOne : Cart := ⟨"e@x.io", [⟨7, exampleProductB, 1⟩], "PAYMENT_OPTION_DEFAULT"⟩

/-- A store holding `exampleCart` and `exampleCartOne`. -/
def exampleStoreOne : Store :=
  ⟨[exampleCart, exampleCartOne], [exampleProductA, exampleProductB], 8⟩

/-- The owner of `exampleCartOne`. -/
def exampleUserOne : User := ⟨"e@x.io", 10, true⟩

/-- A world: the three carts of `exampleStore3` and the four users of the examples. -/
def exampleWorld : World :=
  ⟨exampleStore3, [exampleUser, exampleUser400, exampleUserNoAddress, exampleUserNoCart]⟩

/-- A world without carts: one product of cost 100 and one user with an empty wallet and
an address set. -/
def exampleWorldEmpty : World := ⟨⟨[], [exampleProductA], 0⟩, [⟨"a@x.io", 0, true⟩]⟩

/-- A world without carts: one product of cost 100 and one user with 500 in the wallet and
an address set. -/
def exampleWorldRich : World := ⟨⟨[], [exampleProductA], 0⟩, [⟨"a@x.io", 500, true⟩]⟩

/-- A product whose cost is the number `Infinity`. -/
def exampleProductInf : Product := ⟨"p8", .infinity false⟩

/-- A store with one cart: a line of `exampleProductInf` with quantity 1. -/
def exampleStoreInf : Store :=
  ⟨[⟨"a@x.io", [⟨0, exampleProductInf, 1⟩], "PAYMENT_OPTION_DEFAULT"⟩], [exampleProductInf], 1⟩

/-- The owner of the cart of `exampleStoreInf`, with `Infinity` in the wallet. -/
def exampleUserInf : User := ⟨"a@x.io", .infinity false, true⟩

/-- A store with one cart: a line of `exampleProductInf` with quantity 0. -/
def exampleStoreNaN : Store :=
  ⟨[⟨"a@x.io", [⟨0, exampleProductInf, 0⟩], "PAYMENT_OPTION_DEFAULT"⟩], [exampleProductInf], 1⟩

/-- A world without carts: one product of cost `Infinity` and one user with an empty
wallet and an address set. -/
def exampleWorldInf : World := ⟨⟨[], [exampleProductInf], 0⟩, [⟨"a@x.io", 0, true⟩]⟩

/-- A product costing 0. -/
def exampleProductFree : Product := ⟨"p0", 0⟩

/-- A world without carts: one product of cost 0 and one user with an empty wallet and an
address set. -/
def exampleWorldFree : World := ⟨⟨[], [exampleProductFree], 0⟩, [⟨"a@x.io", 0, true⟩]⟩

/-- A world without carts: one product of cost 100 and one user with `Infinity` in the
wallet and an address set. -/
def exampleWorldInfWallet : World :=
  ⟨⟨[], [exampleProductA], 0⟩, [⟨"a@x.io", .infinity false, true⟩]⟩

/-- The number -1.5, which is `-(3 * 2 ^ 51) * 2 ^ -52`. -/
def exampleFraction : JSNumber := .finite true (3 * 2 ^ 51) (-52)

/-- The number `2 ^ 1023`. -/
def exampleHuge : JSNumber := .finite false (2 ^ 52) 971

/-! ## Store lemmas -/

theorem Cart.findOne_email {email : String} {s : Store} {c : Cart}
    (h : Cart.findOne email s = some c) : c.email = email := by
  have := List.find?_some h
  simpa using this

theorem Cart.find?_replace (email : String) (c1 : Cart) (h1 : c1.email = email) :
    ∀ (carts : List Cart) (c : Cart),
      carts.find? (fun d => decide (d.email = email)) = some c →
      (Cart.replace c1 carts).find? (fun d => decide (d.email = email)) = some c1
  | [], c, h => by simp at h
  | d :: ds, c, h => by
    by_cases hd : d.email = email
    · simp [Cart.replace, hd, h1]
    · have hd1 : ¬ d.email = c1.email := by rw [h1]; exact hd
      have hrest : ds.find? (fun d => decide (d.email = email)) = some c := by
        simpa [List.find?_cons, hd] using h
      simp [Cart.replace, hd1, List.find?_cons, hd, Cart.find?_replace email c1 h1 ds c hrest]

/-- Reading back after `save`: the document found is the one saved. -/
theorem Cart.findOne_save (c1 : Cart) {email : String} {s : Store} {c : Cart}
    (h : Cart.findOne email s = some c) (h1 : c1.email = email) :
    Cart.findOne email (Cart.save c1 s) = some c1 :=
  Cart.find?_replace email c1 h1 s.carts c h

theorem Product.findOne_id {productId : String} {s : Store} {p : Product}
    (h : Product.findOne productId s = some p) : p._id = productId := by
  have := List.find?_some h
  simpa using this

theorem Product.findOne_eq_none_iff (productId : String) (s : Store) :
    Product.findOne productId s = none ↔ ∀ p ∈ s.products, p._id ≠ productId := by
  simp [Product.findOne, List.find?_eq_none]

/-! ## Lemmas on JavaScript numbers -/

theorem JSNumber.scaled_not (s : Bool) (m : Nat) (e g : Int) :
    JSNumber.scaled (!s) m e g = -JSNumber.scaled s m e g := by
  cases s <;> simp [JSNumber.scaled]

/-- Where `a <= b` holds, `a > b` does not. -/
theorem JSNumber.gt_of_le (a b : JSNumber) (h : JSNumber.le a b = true) :
    JSNumber.gt a b = false := by
  cases a with
  | nan => cases b <;> rfl
  | infinity s =>
    cases b with
    | nan => rfl
    | infinity u => cases s <;> cases u <;> simp_all [JSNumber.le, JSNumber.gt]
    | finite u n f => cases s <;> simp_all [JSNumber.le, JSNumber.gt]
  | finite s m e =>
    cases b with
    | nan => rfl
    | infinity u => cases u <;> simp_all [JSNumber.le, JSNumber.gt]
    | finite u n f =>
      simp only [JSNumber.le, decide_eq_true_eq] at h
      simp only [JSNumber.gt, decide_eq_false_iff_not, gt_iff_lt, not_lt]
      exact h

/-- Where `a === b` holds, `a > b` does not. -/
theorem JSNumber.gt_of_eq (a b : JSNumber) (h : JSNumber.eq a b = true) :
    JSNumber.gt a b = false := by
  cases a with
  | nan => cases b <;> rfl
  | infinity s =>
    cases b with
    | nan => rfl
    | infinity u => cases s <;> cases u <;> simp_all [JSNumber.eq, JSNumber.gt]
    | finite u n f => simp [JSNumber.eq] at h
  | finite s m e =>
    cases b with
    | nan => rfl
    | infinity u => simp [JSNumber.eq] at h
    | finite u n f =>
      simp only [JSNumber.eq, decide_eq_true_eq] at h
      simp only [JSNumber.gt, decide_eq_false_iff_not, gt_iff_lt, not_lt]
      exact le_of_eq h

/-- For finite `a === b`, the difference `b - a` is a zero. -/
theorem JSNumber.sub_of_eq (a b : JSNumber) (h : JSNumber.eq a b = true)
    (hfin : b.isFinite = true) : JSNumber.eq (JSNumber.sub b a) 0 = true := by
  cases b with
  | nan => simp [JSNumber.isFinite] at hfin
  | infinity u => simp [JSNumber.isFinite] at hfin
  | finite u n f =>
    cases a with
    | nan => simp [JSNumber.eq] at h
    | infinity s => simp [JSNumber.eq] at h
    | finite s m e =>
      simp only [JSNumber.eq, decide_eq_true_eq] at h
      have hsum : JSNumber.scaled u n f (min f e) + JSNumber.scaled (!s) m e (min f e) = 0 := by
        rw [JSNumber.scaled_not, min_comm f e, ← h]
        omega
      have hval : JSNumber.sub (.finite u n f) (.finite s m e)
          = .finite (u && !s) 0 (-1074) := by
        simp only [JSNumber.sub, JSNumber.neg, JSNumber.add, hsum, if_true]
      rw [hval]
      cases u <;> cases s <;> decide

/-- A finite number minus itself is the number 0. -/
theorem JSNumber.sub_self (a : JSNumber) (hfin : a.isFinite = true) :
    JSNumber.sub a a = 0 := by
  cases a with
  | nan => simp [JSNumber.isFinite] at hfin
  | infinity u => simp [JSNumber.isFinite] at hfin
  | finite u n f =>
    have hsum : JSNumber.scaled u n f (min f f) + JSNumber.scaled (!u) n f (min f f) = 0 := by
      rw [JSNumber.scaled_not]
      omega
    have hval : JSNumber.sub (.finite u n f) (.finite u n f)
        = .finite (u && !u) 0 (-1074) := by
      simp only [JSNumber.sub, JSNumber.neg, JSNumber.add, hsum, if_true]
    rw [hval]
    cases u <;> rfl

theorem JSNumber.log2Fuel_spec :
    ∀ (fuel n : Nat), n ≤ fuel → n ≠ 0 →
      2 ^ JSNumber.log2Fuel fuel n ≤ n ∧ n < 2 ^ (JSNumber.log2Fuel fuel n + 1)
  | 0, n, hle, hn => absurd (Nat.le_zero.mp hle) hn
  | fuel + 1, n, hle, hn => by
    by_cases h2 : n < 2
    · have h1 : n = 1 := by omega
      simp [JSNumber.log2Fuel, h1]
    · have hdiv : n / 2 ≤ fuel := by omega
      have hne : n / 2 ≠ 0 := by omega
      obtain ⟨ih1, ih2⟩ := JSNumber.log2Fuel_spec fuel (n / 2) hdiv hne
      rw [JSNumber.log2Fuel, if_neg h2]
      constructor
      · calc 2 ^ (JSNumber.log2Fuel fuel (n / 2) + 1)
            = 2 ^ JSNumber.log2Fuel fuel (n / 2) * 2 := by rw [pow_succ]
          _ ≤ n / 2 * 2 := Nat.mul_le_mul_right 2 ih1
          _ ≤ n := Nat.div_mul_le_self n 2
      · have h3 : n / 2 + 1 ≤ 2 ^ (JSNumber.log2Fuel fuel (n / 2) + 1) := ih2
        calc n < (n / 2 + 1) * 2 := by omega
          _ ≤ 2 ^ (JSNumber.log2Fuel fuel (n / 2) + 1) * 2 := Nat.mul_le_mul_right 2 h3
          _ = 2 ^ (JSNumber.log2Fuel fuel (n / 2) + 1 + 1) := by rw [← pow_succ]

/-- The leading bit: `2 ^ log2 n ≤ n < 2 ^ (log2 n + 1)`. -/
theorem JSNumber.log2_spec (n : Nat) (hn : n ≠ 0) :
    2 ^ JSNumber.log2 n ≤ n ∧ n < 2 ^ (JSNumber.log2 n + 1) :=
  JSNumber.log2Fuel_spec n n (Nat.le_refl n) hn

/-- Rounding `s / 2 ^ k` to the nearest integer does not pass a multiple of `2 ^ k` that
`s` does not pass. -/
theorem JSNumber.roundShift_mul_le (s w k : Nat) (hdvd : 2 ^ k ∣ w) (hle : s ≤ w) :
    JSNumber.roundShift s k * 2 ^ k ≤ w := by
  obtain ⟨c, hc⟩ := hdvd
  have hpos : 0 < 2 ^ k := Nat.two_pow_pos _
  have hdm : 2 ^ k * (s / 2 ^ k) + s % 2 ^ k = s := Nat.div_add_mod s (2 ^ k)
  have hq : s / 2 ^ k * 2 ^ k ≤ w := le_trans (Nat.div_mul_le_self s (2 ^ k)) hle
  unfold JSNumber.roundShift
  split
  · rename_i hup
    have hr : 0 < s % 2 ^ k := by
      rcases hup with h | ⟨h, -⟩ <;> omega
    have hlt : s / 2 ^ k < c := by
      by_contra hnot
      have hcq : c ≤ s / 2 ^ k := Nat.le_of_not_lt hnot
      have : 2 ^ k * c ≤ 2 ^ k * (s / 2 ^ k) := Nat.mul_le_mul_left _ hcq
      omega
    calc (s / 2 ^ k + 1) * 2 ^ k ≤ c * 2 ^ k := Nat.mul_le_mul_right _ hlt
      _ = w := by rw [hc, Nat.mul_comm]
  · exact hq

/-- The result of rounding a value of sign `negative`: a zero or a finite number of that
sign, or the infinity of that sign. -/
theorem JSNumber.round_nonNeg (negative : Bool) (m : Nat) (e : Int)
    (h : negative = false ∨ m = 0) : (JSNumber.round negative m e).NonNeg := by
  unfold JSNumber.round
  by_cases hm : m = 0
  · rw [if_pos hm]
    exact Or.inr rfl
  · rw [if_neg hm]
    have hneg : negative = false := h.resolve_right hm
    subst hneg
    dsimp only
    split_ifs <;> simp [JSNumber.NonNeg]

theorem JSNumber.scaled_of_nonNeg (s : Bool) (m : Nat) (e g : Int) (h : s = false ∨ m = 0) :
    JSNumber.scaled s m e g = ((m * 2 ^ (e - g).toNat : Nat) : Int) := by
  rcases h with h | h
  · subst h
    rfl
  · subst h
    cases s <;> simp [JSNumber.scaled]

/-- The numbers `x` with `0 <= x`. -/
theorem JSNumber.le_zero_iff (x : JSNumber) : JSNumber.le 0 x = true ↔ x.NonNeg := by
  have h0 : (0 : JSNumber) = .finite false 0 (-1074) := rfl
  rw [h0]
  cases x with
  | nan => simp [JSNumber.le, JSNumber.NonNeg]
  | infinity s => cases s <;> simp [JSNumber.le, JSNumber.NonNeg]
  | finite s m e =>
    have hpos : 0 < 2 ^ (e - min (-1074) e).toNat := Nat.two_pow_pos _
    cases s with
    | false => simp [JSNumber.le, JSNumber.NonNeg, JSNumber.scaled]
    | true =>
      simp only [JSNumber.le, JSNumber.NonNeg, JSNumber.scaled, decide_eq_true_eq]
      constructor
      · intro h
        right
        simp at h
        have : m * 2 ^ (e - min (-1074) e).toNat = 0 := by
          have h1 : ((m * 2 ^ (e - min (-1074) e).toNat : Nat) : Int) ≤ 0 := by
            push_cast
            linarith
          exact_mod_cast le_antisymm h1 (by positivity)
        rcases Nat.mul_eq_zero.mp this with h2 | h2
        · exact h2
        · omega
      · rintro (h | h)
        · cases h
        · subst h
          simp

theorem JSNumber.roundShift_le (m k : Nat) : JSNumber.roundShift m k ≤ m / 2 ^ k + 1 := by
  unfold JSNumber.roundShift
  split <;> omega

theorem JSNumber.le_roundShift (m k : Nat) : m / 2 ^ k ≤ JSNumber.roundShift m k := by
  unfold JSNumber.roundShift
  split <;> omega

/-- Rounding yields a double. -/
theorem JSNumber.round_isDouble (negative : Bool) (m : Nat) (e : Int) :
    (JSNumber.round negative m e).IsDouble := by
  unfold JSNumber.round
  by_cases hm : m = 0
  · rw [if_pos hm]
    exact ⟨by norm_num, le_refl _, by norm_num, Or.inr rfl⟩
  · rw [if_neg hm]
    obtain ⟨hlo, hhi⟩ := JSNumber.log2_spec m hm
    generalize JSNumber.log2 m = L at hlo hhi
    dsimp only
    by_cases hcase : max ((L : Int) + e - 52) (-1074) ≤ e
    · rw [if_pos hcase]
      obtain ⟨k, hk⟩ : ∃ k : Nat, (e - max ((L : Int) + e - 52) (-1074)).toNat = k := ⟨_, rfl⟩
      rw [hk]
      have hLk : L + 1 + k ≤ 53 := by omega
      have hman : m * 2 ^ k < 2 ^ 53 :=
        calc m * 2 ^ k < 2 ^ (L + 1) * 2 ^ k := Nat.mul_lt_mul_of_pos_right hhi (Nat.two_pow_pos k)
          _ = 2 ^ (L + 1 + k) := (pow_add 2 (L + 1) k).symm
          _ ≤ 2 ^ 53 := Nat.pow_le_pow_right (by decide) hLk
      rw [if_neg (Nat.ne_of_lt hman), if_neg (Nat.ne_of_lt hman)]
      split
      · trivial
      · rename_i h971
        refine ⟨hman, by omega, by omega, ?_⟩
        by_cases hsub : max ((L : Int) + e - 52) (-1074) = -1074
        · exact Or.inr hsub
        · left
          have hk52 : L + k = 52 := by omega
          calc 2 ^ 52 = 2 ^ L * 2 ^ k := by rw [← pow_add, hk52]
            _ ≤ m * 2 ^ k := Nat.mul_le_mul_right _ hlo
    · rw [if_neg hcase]
      obtain ⟨k, hk⟩ : ∃ k : Nat, (max ((L : Int) + e - 52) (-1074) - e).toNat = k := ⟨_, rfl⟩
      rw [hk]
      have hLk : L + 1 ≤ k + 53 := by omega
      have hdiv : m / 2 ^ k < 2 ^ 53 := by
        apply Nat.div_lt_of_lt_mul
        calc m < 2 ^ (L + 1) := hhi
          _ ≤ 2 ^ (k + 53) := Nat.pow_le_pow_right (by decide) hLk
          _ = 2 ^ k * 2 ^ 53 := pow_add 2 k 53
      have hup := JSNumber.roundShift_le m k
      have hdn := JSNumber.le_roundShift m k
      by_cases hcarry : JSNumber.roundShift m k = 2 ^ 53
      · rw [if_pos hcarry, if_pos hcarry]
        split
        · trivial
        · rename_i h971
          exact ⟨by norm_num, by omega, by omega, Or.inl (le_refl _)⟩
      · rw [if_neg hcarry, if_neg hcarry]
        split
        · trivial
        · rename_i h971
          refine ⟨by omega, by omega, by omega, ?_⟩
          by_cases hsub : max ((L : Int) + e - 52) (-1074) = -1074
          · exact Or.inr hsub
          · left
            have hk52 : L = k + 52 := by omega
            have : 2 ^ 52 ≤ m / 2 ^ k := by
              rw [Nat.le_div_iff_mul_le (Nat.two_pow_pos k)]
              calc 2 ^ 52 * 2 ^ k = 2 ^ L := by rw [← pow_add, hk52, Nat.add_comm]
                _ ≤ m := hlo
            omega

/-- A sum is a double. -/
theorem JSNumber.add_isDouble (a b : JSNumber) : (JSNumber.add a b).IsDouble := by
  cases a with
  | nan => cases b <;> trivial
  | infinity s =>
    cases b with
    | nan => trivial
    | infinity t =>
      simp only [JSNumber.add]
      split <;> trivial
    | finite t n f => trivial
  | finite s m e =>
    cases b with
    | nan => trivial
    | infinity t => trivial
    | finite t n f =>
      simp only [JSNumber.add]
      split
      · exact ⟨by norm_num, le_refl _, by norm_num, Or.inr rfl⟩
      · exact JSNumber.round_isDouble _ _ _


/-- The product of two finite numbers that are not negative is not negative. -/
theorem JSNumber.mul_nonNeg (a b : JSNumber) (ha : a.isFinite = true) (hb : b.isFinite = true)
    (hna : a.NonNeg) (hnb : b.NonNeg) : (JSNumber.mul a b).NonNeg := by
  cases a with
  | nan => simp [JSNumber.isFinite] at ha
  | infinity s => simp [JSNumber.isFinite] at ha
  | finite s m e =>
    cases b with
    | nan => simp [JSNumber.isFinite] at hb
    | infinity t => simp [JSNumber.isFinite] at hb
    | finite t n f =>
      simp only [JSNumber.mul]
      apply JSNumber.round_nonNeg
      rcases hna with h | h
      · rcases hnb with h2 | h2
        · left
          subst h
          subst h2
          rfl
        · right
          subst h2
          rfl
      · right
        subst h
        exact Nat.zero_mul n

/-- The sum of two numbers that are not negative is not negative. -/
theorem JSNumber.add_nonNeg (a b : JSNumber) (hna : a.NonNeg) (hnb : b.NonNeg) :
    (JSNumber.add a b).NonNeg := by
  cases a with
  | nan => exact hna.elim
  | infinity s =>
    cases b with
    | nan => exact hnb.elim
    | infinity t =>
      have hs : s = false := hna
      have ht : t = false := hnb
      subst hs
      subst ht
      rfl
    | finite t n f => exact hna
  | finite s m e =>
    cases b with
    | nan => exact hnb.elim
    | infinity t => exact hnb
    | finite t n f =>
      simp only [JSNumber.add]
      rw [JSNumber.scaled_of_nonNeg s m e _ hna, JSNumber.scaled_of_nonNeg t n f _ hnb]
      split
      · exact Or.inr rfl
      · apply JSNumber.round_nonNeg
        left
        simp only [decide_eq_false_iff_not, not_lt]
        positivity

/-- Where `t > w` does not hold of a wallet `w` that is NaN or not negative, `w - t` is NaN
or not negative. -/
theorem JSNumber.sub_nonNeg (w t : JSNumber) (hw : w.isNaN = true ∨ w.NonNeg)
    (hgt : JSNumber.gt t w = false) :
    (JSNumber.sub w t).isNaN = true ∨ (JSNumber.sub w t).NonNeg := by
  cases w with
  | nan => cases t <;> exact Or.inl rfl
  | infinity s =>
    have hs : s = false := by
      rcases hw with h | h
      · cases h
      · exact h
    subst hs
    cases t with
    | nan => exact Or.inl rfl
    | infinity u => cases u <;> simp [JSNumber.sub, JSNumber.neg, JSNumber.add, JSNumber.isNaN, JSNumber.NonNeg]
    | finite u n f => exact Or.inr rfl
  | finite s m e =>
    have hs : s = false ∨ m = 0 := by
      rcases hw with h | h
      · cases h
      · exact h
    cases t with
    | nan => exact Or.inl rfl
    | infinity u =>
      have hu : u = true := by simpa [JSNumber.gt] using hgt
      subst hu
      exact Or.inr rfl
    | finite u n f =>
      right
      simp only [JSNumber.gt, decide_eq_false_iff_not, gt_iff_lt, not_lt] at hgt
      simp only [JSNumber.sub, JSNumber.neg, JSNumber.add]
      rw [JSNumber.scaled_not, min_comm e f]
      split
      · exact Or.inr rfl
      · apply JSNumber.round_nonNeg
        left
        simp only [decide_eq_false_iff_not, not_lt]
        omega

/-- Rounding a positive value that does not exceed a double does not exceed that double. -/
theorem JSNumber.round_le (S : Nat) (g : Int) (mw : Nat) (ew : Int) (hS : S ≠ 0)
    (hg : g ≤ ew) (hle : S ≤ mw * 2 ^ (ew - g).toNat) (hmw : mw < 2 ^ 53) (hlo : -1074 ≤ ew)
    (hew : ew ≤ 971) :
    JSNumber.le (JSNumber.round false S g) (.finite false mw ew) = true := by
  unfold JSNumber.round
  rw [if_neg hS]
  obtain ⟨hL, hL2⟩ := JSNumber.log2_spec S hS
  generalize JSNumber.log2 S = L at hL hL2
  obtain ⟨a, ha⟩ : ∃ a : Nat, (ew - g).toNat = a := ⟨_, rfl⟩
  rw [ha] at hle
  have hLa : L < 53 + a := by
    have h1 : 2 ^ L < 2 ^ (53 + a) :=
      calc 2 ^ L ≤ S := hL
        _ ≤ mw * 2 ^ a := hle
        _ < 2 ^ 53 * 2 ^ a := Nat.mul_lt_mul_of_pos_right hmw (Nat.two_pow_pos a)
        _ = 2 ^ (53 + a) := (pow_add 2 53 a).symm
    exact (Nat.pow_lt_pow_iff_right (by decide)).mp h1
  dsimp only
  by_cases hcase : max ((L : Int) + g - 52) (-1074) ≤ g
  · rw [if_pos hcase]
    obtain ⟨k, hk⟩ : ∃ k : Nat, (g - max ((L : Int) + g - 52) (-1074)).toNat = k := ⟨_, rfl⟩
    rw [hk]
    have hLk : L + 1 + k ≤ 53 := by omega
    have hman : S * 2 ^ k < 2 ^ 53 :=
      calc S * 2 ^ k < 2 ^ (L + 1) * 2 ^ k := Nat.mul_lt_mul_of_pos_right hL2 (Nat.two_pow_pos k)
        _ = 2 ^ (L + 1 + k) := (pow_add 2 (L + 1) k).symm
        _ ≤ 2 ^ 53 := Nat.pow_le_pow_right (by decide) hLk
    rw [if_neg (Nat.ne_of_lt hman), if_neg (Nat.ne_of_lt hman), if_neg (by omega)]
    simp only [JSNumber.le, JSNumber.scaled, decide_eq_true_eq, Bool.false_eq_true, if_false]
    have hmin : min (max ((L : Int) + g - 52) (-1074)) ew = max ((L : Int) + g - 52) (-1074) := by
      omega
    rw [hmin]
    have h0 : (max ((L : Int) + g - 52) (-1074) - max ((L : Int) + g - 52) (-1074)).toNat = 0 := by
      omega
    have h1 : (ew - max ((L : Int) + g - 52) (-1074)).toNat = a + k := by omega
    rw [h0, h1, pow_zero, Nat.mul_one]
    apply Int.ofNat_le.mpr
    calc S * 2 ^ k ≤ mw * 2 ^ a * 2 ^ k := Nat.mul_le_mul_right _ hle
      _ = mw * 2 ^ (a + k) := by rw [Nat.mul_assoc, ← pow_add]
  · rw [if_neg hcase]
    obtain ⟨k, hk⟩ : ∃ k : Nat, (max ((L : Int) + g - 52) (-1074) - g).toNat = k := ⟨_, rfl⟩
    rw [hk]
    have hka : k ≤ a := by omega
    obtain ⟨b, hb⟩ : ∃ b : Nat, a = b + k := ⟨a - k, by omega⟩
    have hdvd : 2 ^ k ∣ mw * 2 ^ a := by
      rw [hb, pow_add]
      exact ⟨mw * 2 ^ b, by ring⟩
    have hround := JSNumber.roundShift_mul_le S (mw * 2 ^ a) k hdvd hle
    have hround2 : JSNumber.roundShift S k ≤ mw * 2 ^ b := by
      have h2 : JSNumber.roundShift S k * 2 ^ k ≤ mw * 2 ^ b * 2 ^ k := by
        calc JSNumber.roundShift S k * 2 ^ k ≤ mw * 2 ^ a := hround
          _ = mw * 2 ^ b * 2 ^ k := by rw [hb, pow_add, Nat.mul_assoc]
      exact Nat.le_of_mul_le_mul_right h2 (Nat.two_pow_pos k)
    by_cases hcarry : JSNumber.roundShift S k = 2 ^ 53
    · rw [if_pos hcarry, if_pos hcarry]
      have hb1 : 1 ≤ b := by
        by_contra hnot
        have hb0 : b = 0 := by omega
        rw [hb0, pow_zero, Nat.mul_one, hcarry] at hround2
        omega
      obtain ⟨c, hc⟩ : ∃ c : Nat, b = c + 1 := ⟨b - 1, by omega⟩
      rw [if_neg (by omega)]
      simp only [JSNumber.le, JSNumber.scaled, decide_eq_true_eq, Bool.false_eq_true, if_false]
      have hmin : min (max ((L : Int) + g - 52) (-1074) + 1) ew
          = max ((L : Int) + g - 52) (-1074) + 1 := by omega
      rw [hmin]
      have h0 : (max ((L : Int) + g - 52) (-1074) + 1
          - (max ((L : Int) + g - 52) (-1074) + 1)).toNat = 0 := by omega
      have h1 : (ew - (max ((L : Int) + g - 52) (-1074) + 1)).toNat = c := by omega
      rw [h0, h1, pow_zero, Nat.mul_one]
      apply Int.ofNat_le.mpr
      have h2 : 2 ^ 53 ≤ mw * 2 ^ c * 2 := by
        have h3 : mw * 2 ^ b = mw * 2 ^ c * 2 := by rw [hc, pow_succ, Nat.mul_assoc]
        rw [← h3, ← hcarry]
        exact hround2
      omega
    · rw [if_neg hcarry, if_neg hcarry, if_neg (by omega)]
      simp only [JSNumber.le, JSNumber.scaled, decide_eq_true_eq, Bool.false_eq_true, if_false]
      have hmin : min (max ((L : Int) + g - 52) (-1074)) ew
          = max ((L : Int) + g - 52) (-1074) := by omega
      rw [hmin]
      have h0 : (max ((L : Int) + g - 52) (-1074) - max ((L : Int) + g - 52) (-1074)).toNat = 0 := by
        omega
      have h1 : (ew - max ((L : Int) + g - 52) (-1074)).toNat = b := by omega
      rw [h0, h1, pow_zero, Nat.mul_one]
      exact Int.ofNat_le.mpr hround2

/-- Where `t > w` does not hold of a finite wallet `w` and a total `t`, neither of them
negative, `w - t <= w` holds. -/
theorem JSNumber.sub_le (w t : JSNumber) (hfin : w.isFinite = true) (hd : w.IsDouble)
    (hw : w.NonNeg) (ht : t.NonNeg) (hgt : JSNumber.gt t w = false) :
    JSNumber.le (JSNumber.sub w t) w = true := by
  cases w with
  | nan => simp [JSNumber.isFinite] at hfin
  | infinity s => simp [JSNumber.isFinite] at hfin
  | finite s m e =>
    cases t with
    | nan => exact ht.elim
    | infinity u =>
      have hu : u = false := ht
      subst hu
      simp [JSNumber.gt] at hgt
    | finite u n f =>
      have hs : s = false ∨ m = 0 := hw
      have hu : u = false ∨ n = 0 := ht
      obtain ⟨hm53, hlo, hhi, -⟩ := hd
      simp only [JSNumber.gt, decide_eq_false_iff_not, gt_iff_lt, not_lt] at hgt
      rw [JSNumber.scaled_of_nonNeg u n f _ hu, JSNumber.scaled_of_nonNeg s m e _ hs,
        min_comm f e] at hgt
      simp only [JSNumber.sub, JSNumber.neg, JSNumber.add]
      rw [JSNumber.scaled_not, JSNumber.scaled_of_nonNeg u n f _ hu,
        JSNumber.scaled_of_nonNeg s m e _ hs]
      generalize hW : m * 2 ^ (e - min e f).toNat = W at hgt
      generalize hT : n * 2 ^ (f - min e f).toNat = T at hgt
      have hTW : T ≤ W := Int.ofNat_le.mp hgt
      split
      · simp only [JSNumber.le, decide_eq_true_eq]
        rw [JSNumber.scaled_of_nonNeg _ 0 _ _ (Or.inr rfl), JSNumber.scaled_of_nonNeg s m e _ hs,
          Nat.zero_mul]
        exact Int.ofNat_le.mpr (Nat.zero_le _)
      · rename_i hne
        have hdec : decide ((W : Int) + -(T : Int) < 0) = false := by
          simp only [decide_eq_false_iff_not, not_lt]
          omega
        rw [hdec]
        have hm0 : m ≠ 0 := by
          intro h0
          rw [h0, Nat.zero_mul] at hW
          omega
        have hsf : s = false := hs.resolve_right hm0
        subst hsf
        apply JSNumber.round_le _ _ _ _ _ (min_le_left e f) _ hm53 hlo hhi
        · omega
        · rw [hW]
          omega

/-- A number that is not NaN satisfies `x <= x`. -/
theorem JSNumber.le_self (x : JSNumber) (h : x.isNaN = false) : JSNumber.le x x = true := by
  cases x with
  | nan => simp [JSNumber.isNaN] at h
  | infinity s => cases s <;> rfl
  | finite s m e => simp [JSNumber.le]

/-- Where `a <= b` holds, `a` is not NaN. -/
theorem JSNumber.isNaN_of_le (a b : JSNumber) (h : JSNumber.le a b = true) :
    a.isNaN = false := by
  cases a with
  | nan => cases b <;> simp [JSNumber.le] at h
  | infinity s => rfl
  | finite s m e => rfl

/-! ## checkout lemmas -/

/-- The accumulated `cartTotal` is the sum, from left to right, of the products
`cost * quantity` of the items. -/
theorem checkout.cartTotal_eq_sum (cartItems : List CartItem) :
    checkout.cartTotal cartItems
      = JSNumber.sum (cartItems.map (fun item => JSNumber.mul item.product.cost item.quantity)) := by
  unfold checkout.cartTotal JSNumber.sum
  rw [List.foldl_map]

/-- The total is accumulated in doubles. For the costs `2 ^ 53` and 1 it is `2 ^ 53`: a
wallet of `2 ^ 53` passes the balance guard and a wallet of `2 ^ 53 + 2` is left with 2.
Three items of cost 0.1 total more than 0.3. -/
theorem checkout.cartTotal_rounds :
    checkout.cartTotal [⟨0, ⟨"p1", 9007199254740992⟩, 1⟩, ⟨1, ⟨"p2", 1⟩, 1⟩]
      = 9007199254740992 ∧
    JSNumber.gt (checkout.cartTotal [⟨0, ⟨"p1", 9007199254740992⟩, 1⟩, ⟨1, ⟨"p2", 1⟩, 1⟩])
      9007199254740992 = false ∧
    JSNumber.sub 9007199254740994
      (checkout.cartTotal [⟨0, ⟨"p1", 9007199254740992⟩, 1⟩, ⟨1, ⟨"p2", 1⟩, 1⟩]) = 2 ∧
    JSNumber.gt (checkout.cartTotal [⟨0, ⟨"p1", .finite false 7205759403792794 (-56)⟩, 3⟩])
      (.finite false 5404319552844595 (-54)) = true :=
  ⟨by decide, by decide, by decide, by decide⟩

/-- The four ways `checkout` proceeds once the cart is found. -/
theorem checkout_of_cart (user : User) (s : Store) (userCart : Cart)
    (hcart : Cart.findOne user.email s = some userCart) :
    checkout user s =
      if userCart.cartItems = [] then
        ⟨.error ⟨400, "user cart is empty"⟩, user, s⟩
      else if user.hasSetNonDefaultAddress = false then
        ⟨.error ⟨400, "User address is not set"⟩, user, s⟩
      else if JSNumber.gt (checkout.cartTotal userCart.cartItems) user.walletMoney = true then
        ⟨.error ⟨400, "Wallet balance insufficient"⟩, user, s⟩
      else
        ⟨.ok { userCart with cartItems := [] },
          { user with walletMoney :=
              JSNumber.sub user.walletMoney (checkout.cartTotal userCart.cartItems) },
          Cart.save { userCart with cartItems := [] } s⟩ := by
  unfold checkout
  rw [hcart]
  simp only [httpStatus.BAD_REQUEST]
  by_cases h0 : userCart.cartItems = []
  · simp [h0]
  · have hlen : ¬ userCart.cartItems.length = 0 := by
      simpa [List.length_eq_zero] using h0
    simp [h0, hlen]

/-- The total of a cart whose items have finite costs and quantities, none of them
negative, is not negative. -/
theorem checkout.cartTotal_nonNeg (cartItems : List CartItem)
    (h : ∀ item ∈ cartItems,
      (item.product.cost.isFinite = true ∧ item.product.cost.NonNeg) ∧
      (item.quantity.isFinite = true ∧ item.quantity.NonNeg)) :
    (checkout.cartTotal cartItems).NonNeg := by
  have hfold : ∀ (items : List CartItem) (acc : JSNumber), acc.NonNeg →
      (∀ item ∈ items,
        (item.product.cost.isFinite = true ∧ item.product.cost.NonNeg) ∧
        (item.quantity.isFinite = true ∧ item.quantity.NonNeg)) →
      (items.foldl (fun cartTotal item =>
        JSNumber.add cartTotal (JSNumber.mul item.product.cost item.quantity)) acc).NonNeg := by
    intro items
    induction items with
    | nil => intro acc hacc _; exact hacc
    | cons item rest ih =>
      intro acc hacc hitems
      rw [List.foldl_cons]
      apply ih
      · obtain ⟨⟨hc1, hc2⟩, hq1, hq2⟩ := hitems item (List.mem_cons_self _ _)
        exact JSNumber.add_nonNeg _ _ hacc (JSNumber.mul_nonNeg _ _ hc1 hq1 hc2 hq2)
      · intro it hit
        exact hitems it (List.mem_cons_of_mem _ hit)
  exact hfold cartItems 0 (Or.inr rfl) h

/-! ## addProductToCart lemmas -/

theorem addProductToCart.scan_eq_neg_one_iff (productId : String) :
    ∀ (cartItems : List CartItem) (i : Nat) (productIndex : Int),
      addProductToCart.scan productId cartItems i productIndex = -1 ↔
        productIndex = -1 ∧ ∀ item ∈ cartItems, item.product._id ≠ productId
  | [], i, productIndex => by simp [addProductToCart.scan]
  | item :: rest, i, productIndex => by
    by_cases h : productId = item.product._id
    · subst h
      have hi : ¬ ((i : Int) = -1) := by omega
      rw [addProductToCart.scan, if_pos rfl, addProductToCart.scan_eq_neg_one_iff]
      simp [hi]
    · have h1 : ¬ item.product._id = productId := fun e => h e.symm
      simp [addProductToCart.scan, h, addProductToCart.scan_eq_neg_one_iff productId rest, h1]

theorem addProductToCart.getCart_of_cart (config : Config) (accepted : Bool) (user : User)
    (s : Store) (cart : Cart) (hcart : Cart.findOne user.email s = some cart) :
    addProductToCart.getCart config accepted user s = .ok (some cart, s) := by
  unfold addProductToCart.getCart
  rw [hcart]

theorem addProductToCart.getCart_created (config : Config) (user : User) (s : Store)
    (hnone : Cart.findOne user.email s = none) :
    addProductToCart.getCart config true user s
      = .ok (some (addProductToCart.newCart config user),
          { s with carts := s.carts ++ [addProductToCart.newCart config user] }) := by
  unfold addProductToCart.getCart
  rw [hnone]
  rfl

theorem addProductToCart.getCart_rejected (config : Config) (user : User) (s : Store)
    (hnone : Cart.findOne user.email s = none) :
    addProductToCart.getCart config false user s
      = .error ⟨500, "500 Internal server error"⟩ := by
  unfold addProductToCart.getCart
  rw [hnone]
  rfl

/-- The three ways `addProductToCart` proceeds once it holds the cart `cart` in the store
`s1`. -/
theorem addProductToCart_of_getCart (config : Config) (accepted : Bool) (user : User)
    (productId : String) (quantity : JSNumber) (s s1 : Store) (cart : Cart)
    (hget : addProductToCart.getCart config accepted user s = .ok (some cart, s1)) :
    addProductToCart config accepted user productId quantity s =
      if ∃ item ∈ cart.cartItems, item.product._id = productId then
        ⟨.error ⟨400,
          "Product already in cart. Use the cart sidebar to update or remove product from cart"⟩,
          s1⟩
      else
        match Product.findOne productId s1 with
        | none => ⟨.error ⟨400, "Product doesn't exist in db"⟩, s1⟩
        | some product =>
          ⟨.ok { cart with cartItems := cart.cartItems ++ [⟨s1.nextId, product, quantity⟩] },
            Cart.save
              { cart with cartItems := cart.cartItems ++ [⟨s1.nextId, product, quantity⟩] }
              { s1 with nextId := s1.nextId + 1 }⟩ := by
  unfold addProductToCart
  rw [hget]
  simp only [httpStatus.BAD_REQUEST]
  by_cases hdup : ∃ item ∈ cart.cartItems, item.product._id = productId
  · have hscan : ¬ addProductToCart.scan productId cart.cartItems 0 (-1) = -1 := by
      rw [addProductToCart.scan_eq_neg_one_iff]
      rintro ⟨-, hall⟩
      obtain ⟨item, hmem, hid⟩ := hdup
      exact hall item hmem hid
    simp [hdup, hscan]
  · have hscan : addProductToCart.scan productId cart.cartItems 0 (-1) = -1 := by
      rw [addProductToCart.scan_eq_neg_one_iff]
      refine ⟨rfl, fun item hmem hid => hdup ⟨item, hmem, hid⟩⟩
    rw [if_neg hdup]
    simp only [hscan, beq_self_eq_true, if_true]

theorem Cart.findOne_append_of_none {email : String} {s : Store} (c0 : Cart)
    (hnone : Cart.findOne email s = none) (h0 : c0.email = email) :
    Cart.findOne email { s with carts := s.carts ++ [c0] } = some c0 := by
  unfold Cart.findOne at hnone ⊢
  simp [List.find?_append, hnone, h0]

theorem Cart.replace_append_of_none (c1 c0 : Cart) (h : c0.email = c1.email) :
    ∀ carts : List Cart, carts.find? (fun d => decide (d.email = c1.email)) = none →
      Cart.replace c1 (carts ++ [c0]) = carts ++ [c1]
  | [], _ => by simp [Cart.replace, h]
  | d :: ds, hnone => by
    have hd : ¬ d.email = c1.email := by
      intro hd
      simp [List.find?_cons, hd] at hnone
    have hrest : ds.find? (fun d => decide (d.email = c1.email)) = none := by
      simpa [List.find?_cons, hd] using hnone
    simp [Cart.replace, hd, Cart.replace_append_of_none c1 c0 h ds hrest]

theorem addProductToCart.getCart_cases (config : Config) (accepted : Bool) (user : User)
    (s : Store) :
    (Cart.findOne user.email s = none ∧ accepted = false ∧
      addProductToCart.getCart config accepted user s
        = .error ⟨500, "500 Internal server error"⟩) ∨
    ∃ cart s1, addProductToCart.getCart config accepted user s = .ok (some cart, s1) ∧
      Cart.findOne user.email s1 = some cart ∧ s1.products = s.products := by
  cases hcart : Cart.findOne user.email s with
  | some cart =>
    exact Or.inr ⟨cart, s, addProductToCart.getCart_of_cart config accepted user s cart hcart,
      hcart, rfl⟩
  | none =>
    cases accepted with
    | false => exact Or.inl ⟨rfl, rfl, addProductToCart.getCart_rejected config user s hcart⟩
    | true =>
      exact Or.inr ⟨_, _, addProductToCart.getCart_created config user s hcart,
        Cart.findOne_append_of_none _ hcart rfl, rfl⟩

/-- A successful `addProductToCart` leaves the returned cart in the store, and that cart
has an item of the product id that was added. -/
theorem addProductToCart_ok_inv (config : Config) (accepted : Bool) (user : User)
    (productId : String) (quantity : JSNumber) (s : Store) (cart1 : Cart)
    (hok : (addProductToCart config accepted user productId quantity s).result = .ok cart1) :
    Cart.findOne user.email (addProductToCart config accepted user productId quantity s).store
      = some cart1 ∧
    ∃ item ∈ cart1.cartItems, item.product._id = productId := by
  rcases addProductToCart.getCart_cases config accepted user s with
    ⟨-, -, hget⟩ | ⟨cart, s1, hget, hfind, -⟩
  · have hval : addProductToCart config accepted user productId quantity s
        = ⟨.error ⟨500, "500 Internal server error"⟩, s⟩ := by
      unfold addProductToCart
      rw [hget]
    rw [hval] at hok
    cases hok
  · rw [addProductToCart_of_getCart config accepted user productId quantity s s1 cart hget]
      at hok ⊢
    by_cases hdup : ∃ item ∈ cart.cartItems, item.product._id = productId
    · rw [if_pos hdup] at hok
      cases hok
    · rw [if_neg hdup] at hok ⊢
      cases hprod : Product.findOne productId s1 with
      | none =>
        rw [hprod] at hok
        cases hok
      | some product =>
        rw [hprod] at hok
        dsimp only at hok ⊢
        have hemail : cart.email = user.email := Cart.findOne_email hfind
        have hfind1 : Cart.findOne user.email { s1 with nextId := s1.nextId + 1 } = some cart :=
          hfind
        have hsaved := Cart.findOne_save
          { cart with cartItems := cart.cartItems ++ [⟨s1.nextId, product, quantity⟩] }
          hfind1 hemail
        cases hok
        refine ⟨hsaved, ⟨s1.nextId, product, quantity⟩, by simp, ?_⟩
        exact Product.findOne_id hprod

/-! ## updateProductInCart lemmas -/

theorem updateProductInCart.loop_eq_none_iff (productId : String) (quantity : JSNumber) :
    ∀ cartItems : List CartItem,
      updateProductInCart.loop productId quantity cartItems = none ↔
        ∀ item ∈ cartItems, item.product._id ≠ productId
  | [] => by simp [updateProductInCart.loop]
  | item :: rest => by
    by_cases h : item.product._id = productId
    · simp [updateProductInCart.loop, h]
    · simp [updateProductInCart.loop, h, updateProductInCart.loop_eq_none_iff productId quantity rest]

/-- A loop that finds a match splits the items at the first match and overwrites the
quantity there. -/
theorem updateProductInCart.loop_eq_some (productId : String) (quantity : JSNumber) :
    ∀ (cartItems cartItems1 : List CartItem),
      updateProductInCart.loop productId quantity cartItems = some cartItems1 →
      ∃ pre item post, cartItems = pre ++ item :: post ∧
        (∀ x ∈ pre, x.product._id ≠ productId) ∧ item.product._id = productId ∧
        cartItems1 = pre ++ { item with quantity := quantity } :: post
  | [], cartItems1, h => by simp [updateProductInCart.loop] at h
  | item :: rest, cartItems1, h => by
    by_cases hid : item.product._id = productId
    · rw [updateProductInCart.loop, if_pos hid] at h
      cases h
      exact ⟨[], item, rest, rfl, by simp, hid, rfl⟩
    · rw [updateProductInCart.loop, if_neg hid] at h
      cases hrest : updateProductInCart.loop productId quantity rest with
      | none => simp [hrest] at h
      | some r =>
        rw [hrest] at h
        cases h
        obtain ⟨pre, it, post, hsplit, hpre, hit, hr⟩ :=
          updateProductInCart.loop_eq_some productId quantity rest r hrest
        refine ⟨item :: pre, it, post, by simp [hsplit], ?_, hit, by simp [hr]⟩
        intro x hx
        rcases List.mem_cons.mp hx with rfl | hx
        · exact hid
        · exact hpre x hx

/-- The three ways `updateProductInCart` proceeds once the cart is found. -/
theorem updateProductInCart_of_cart (user : User) (productId : String) (quantity : JSNumber)
    (s : Store) (cart : Cart) (hcart : Cart.findOne user.email s = some cart) :
    updateProductInCart user productId quantity s =
      match Product.findOne productId s with
      | none => ⟨.error ⟨400, "Product doesn't exist in database"⟩, s⟩
      | some _ =>
        match updateProductInCart.loop productId quantity cart.cartItems with
        | some cartItems =>
          ⟨.ok { cart with cartItems := cartItems },
            Cart.save { cart with cartItems := cartItems } s⟩
        | none => ⟨.error ⟨400, "Product not in Cart"⟩, s⟩ := by
  unfold updateProductInCart
  rw [hcart]
  rfl

/-! ## deleteProductFromCart lemmas -/

theorem Cart.find?_pull (email : String) (id : Nat) :
    ∀ (carts : List Cart) (c : Cart),
      carts.find? (fun d => decide (d.email = email)) = some c →
      (Cart.pull email id carts).find? (fun d => decide (d.email = email))
        = some { c with cartItems := c.cartItems.filter (fun item => decide (item._id ≠ id)) }
  | [], c, h => by simp at h
  | d :: ds, c, h => by
    by_cases hd : d.email = email
    · have hc : d = c := by simpa [List.find?_cons, hd] using h
      subst hc
      simp [Cart.pull, hd]
    · have hrest : ds.find? (fun d => decide (d.email = email)) = some c := by
        simpa [List.find?_cons, hd] using h
      simp [Cart.pull, List.find?_cons, hd, Cart.find?_pull email id ds c hrest]

/-- Reading back after a pull: the cart found is the former one without the items of the
pulled `_id`. -/
theorem Cart.findOne_updateOne {email : String} {s : Store} {c : Cart} (id : Nat)
    (h : Cart.findOne email s = some c) :
    Cart.findOne email (Cart.updateOne email id s).2
      = some { c with cartItems := c.cartItems.filter (fun item => decide (item._id ≠ id)) } :=
  Cart.find?_pull email id s.carts c h

/-- With pairwise distinct item ids, pulling the id of one item removes that item only. -/
theorem CartItem.filter_id_ne (pre post : List CartItem) (item : CartItem)
    (hids : ((pre ++ item :: post).map CartItem._id).Nodup) :
    (pre ++ item :: post).filter (fun x => decide (x._id ≠ item._id)) = pre ++ post := by
  rw [List.map_append, List.map_cons, List.nodup_append] at hids
  obtain ⟨-, hpost, hdisj⟩ := hids
  rw [List.nodup_cons] at hpost
  have hpre : ∀ x ∈ pre, x._id ≠ item._id := by
    intro x hx heq
    exact hdisj (List.mem_map_of_mem CartItem._id hx) (by rw [heq]; exact List.mem_cons_self _ _)
  have hpo : ∀ x ∈ post, x._id ≠ item._id := by
    intro x hx heq
    exact hpost.1 (by rw [← heq]; exact List.mem_map_of_mem CartItem._id hx)
  rw [List.filter_append, List.filter_cons]
  simp only [ne_eq, not_true_eq_false, decide_False, Bool.false_eq_true, if_false]
  rw [List.filter_eq_self.mpr (fun x hx => by simpa using hpre x hx),
    List.filter_eq_self.mpr (fun x hx => by simpa using hpo x hx)]

/-- The two ways `deleteProductFromCart` proceeds once the cart is found. -/
theorem deleteProductFromCart_of_cart (user : User) (productId : String) (s : Store)
    (cart : Cart) (hcart : Cart.findOne user.email s = some cart) :
    deleteProductFromCart user productId s =
      match cart.cartItems.filter (fun item => decide (item.product._id = productId)) with
      | [] => ⟨.error ⟨400, "Product not in cart"⟩, s⟩
      | first :: _ =>
        ⟨.ok .acknowledged, { s with carts := Cart.pull user.email first._id s.carts }⟩ := by
  unfold deleteProductFromCart
  rw [hcart]
  rfl

/-! ## Contract of checkout -/

/-- C1 (checkout success postcondition): when the user's cart exists and has at least one
item, the address predicate is true and `cartTotal`, the sum over the items of
`cost * quantity` (sum and products as JavaScript computes them), is not greater than
`walletMoney`, `checkout` returns the cart with its item list emptied, the wallet
afterwards is the prior wallet minus `cartTotal` (nothing else of the user changes), and
the cart read back from the store is the returned, emptied cart. -/
theorem checkout_success (user : User) (s : Store) (userCart : Cart)
    (hcart : Cart.findOne user.email s = some userCart)
    (hitems : userCart.cartItems ≠ [])
    (haddr : user.hasSetNonDefaultAddress = true)
    (hbal : JSNumber.gt
      (JSNumber.sum
        (userCart.cartItems.map (fun item => JSNumber.mul item.product.cost item.quantity)))
      user.walletMoney = false) :
    (checkout user s).result = .ok { userCart with cartItems := [] } ∧
    (checkout user s).user.walletMoney = JSNumber.sub user.walletMoney
      (JSNumber.sum
        (userCart.cartItems.map (fun item => JSNumber.mul item.product.cost item.quantity))) ∧
    (checkout user s).user.email = user.email ∧
    (checkout user s).user.hasSetNonDefaultAddress = user.hasSetNonDefaultAddress ∧
    Cart.findOne user.email (checkout user s).store = some { userCart with cartItems := [] } ∧
    (∀ c, Cart.findOne user.email (checkout user s).store = some c → c.cartItems = []) := by
  have hfind : Cart.findOne user.email (Cart.save { userCart with cartItems := [] } s)
      = some { userCart with cartItems := [] } :=
    Cart.findOne_save _ hcart (show userCart.email = user.email from Cart.findOne_email hcart)
  rw [← checkout.cartTotal_eq_sum] at hbal ⊢
  have hval : checkout user s =
      ⟨.ok { userCart with cartItems := [] },
        { user with walletMoney :=
            JSNumber.sub user.walletMoney (checkout.cartTotal userCart.cartItems) },
        Cart.save { userCart with cartItems := [] } s⟩ := by
    rw [checkout_of_cart user s userCart hcart, if_neg hitems, if_neg (by simp [haddr]),
      if_neg (by simp [hbal])]
  rw [hval]
  refine ⟨rfl, rfl, rfl, rfl, hfind, ?_⟩
  intro c hc
  rw [hfind] at hc
  cases hc
  rfl

/-- A cart total of 300 against a wallet of 500: the wallet becomes 200 and the cart is
stored and returned with no items. -/
theorem checkout_success_witness :
    (checkout exampleUser exampleStore).result = .ok ⟨"a@x.io", [], "PAYMENT_OPTION_DEFAULT"⟩ ∧
    (checkout exampleUser exampleStore).user.walletMoney = 200 ∧
    (checkout exampleUser exampleStore).user.email = "a@x.io" ∧
    (checkout exampleUser exampleStore).user.hasSetNonDefaultAddress = true ∧
    Cart.findOne "a@x.io" (checkout exampleUser exampleStore).store
      = some ⟨"a@x.io", [], "PAYMENT_OPTION_DEFAULT"⟩ ∧
    (∀ c, Cart.findOne "a@x.io" (checkout exampleUser exampleStore).store = some c →
      c.cartItems = []) :=
  checkout_success exampleUser exampleStore exampleCart (by decide) (by decide) (by decide)
    (by decide)

/-- C2, as the claim states it, fails: with `Infinity` in the wallet and a cart whose total
is `Infinity`, `cartTotal` equals `walletMoney` and the checkout succeeds, but it leaves
`Infinity - Infinity`, which is NaN and not 0. -/
theorem checkout_balance_guard_counterexample :
    Cart.findOne exampleUserInf.email exampleStoreInf
      = some ⟨"a@x.io", [⟨0, exampleProductInf, 1⟩], "PAYMENT_OPTION_DEFAULT"⟩ ∧
    exampleUserInf.hasSetNonDefaultAddress = true ∧
    JSNumber.eq (checkout.cartTotal [⟨0, exampleProductInf, 1⟩]) exampleUserInf.walletMoney
      = true ∧
    (checkout exampleUserInf exampleStoreInf).result
      = .ok ⟨"a@x.io", [], "PAYMENT_OPTION_DEFAULT"⟩ ∧
    (checkout exampleUserInf exampleStoreInf).user.walletMoney = .nan ∧
    JSNumber.eq (checkout exampleUserInf exampleStoreInf).user.walletMoney 0 = false := by
  refine ⟨by decide, by decide, by decide, ?_, by decide, by decide⟩
  rfl

/-- C2 (checkout balance guard), amended: for a user whose cart exists with at least one
item and whose address predicate is true, `checkout` throws exactly when `cartTotal`, as
accumulated by the code, is greater than `walletMoney`, and the error then is 400 "Wallet
balance insufficient"; when `cartTotal` equals `walletMoney` and they are finite, the
call returns and the wallet is 0. -/
theorem checkout_balance_guard (user : User) (s : Store) (userCart : Cart)
    (hcart : Cart.findOne user.email s = some userCart)
    (hitems : userCart.cartItems ≠ [])
    (haddr : user.hasSetNonDefaultAddress = true) :
    ((checkout user s).result = .error ⟨400, "Wallet balance insufficient"⟩ ↔
      JSNumber.gt (checkout.cartTotal userCart.cartItems) user.walletMoney = true) ∧
    ((∃ e, (checkout user s).result = .error e) ↔
      JSNumber.gt (checkout.cartTotal userCart.cartItems) user.walletMoney = true) ∧
    (JSNumber.eq (checkout.cartTotal userCart.cartItems) user.walletMoney = true →
      user.walletMoney.isFinite = true →
      (checkout user s).result = .ok { userCart with cartItems := [] } ∧
      JSNumber.eq (checkout user s).user.walletMoney 0 = true) ∧
    (checkout.cartTotal userCart.cartItems = user.walletMoney →
      user.walletMoney.isFinite = true →
      (checkout user s).result = .ok { userCart with cartItems := [] } ∧
      (checkout user s).user.walletMoney = 0) := by
  rw [checkout_of_cart user s userCart hcart, if_neg hitems, if_neg (by simp [haddr])]
  by_cases hgt : JSNumber.gt (checkout.cartTotal userCart.cartItems) user.walletMoney = true
  · rw [if_pos hgt]
    refine ⟨⟨fun _ => hgt, fun _ => rfl⟩, ⟨fun _ => hgt, fun _ => ⟨_, rfl⟩⟩, ?_, ?_⟩
    · intro heq _
      rw [JSNumber.gt_of_eq _ _ heq] at hgt
      cases hgt
    · intro heq hfin
      have hself := JSNumber.sub_self user.walletMoney hfin
      rw [heq] at hgt
      cases hw : user.walletMoney with
      | nan => rw [hw] at hfin; cases hfin
      | infinity u => rw [hw] at hfin; cases hfin
      | finite u n f =>
        rw [hw] at hgt
        simp [JSNumber.gt] at hgt
  · rw [if_neg hgt]
    refine ⟨⟨fun h => ?_, fun h => absurd h hgt⟩, ⟨fun h => ?_, fun h => absurd h hgt⟩, ?_, ?_⟩
    · cases h
    · obtain ⟨e, he⟩ := h
      cases he
    · intro heq hfin
      exact ⟨rfl, JSNumber.sub_of_eq _ _ heq hfin⟩
    · intro heq hfin
      refine ⟨rfl, ?_⟩
      show JSNumber.sub user.walletMoney (checkout.cartTotal userCart.cartItems) = 0
      rw [heq]
      exact JSNumber.sub_self _ hfin

/-- A cart total of 500 against a wallet of 400: the balance error is raised. -/
theorem checkout_balance_guard_witness :
    (checkout exampleUser400 exampleStore3).result
      = .error ⟨400, "Wallet balance insufficient"⟩ :=
  (checkout_balance_guard exampleUser400 exampleStore3 exampleCart500 (by decide) (by decide)
    (by decide)).1.mpr (by decide)

/-- C3 (checkout is atomic on failure): whenever `checkout` throws, the error is one of
the four of the function (cart missing, cart empty, address not set, balance insufficient),
and the store (hence the Carts collection) and the user entity (hence `walletMoney`) after
the call are those before the call. -/
theorem checkout_failure_atomic (user : User) (s : Store) (e : ApiError)
    (hfail : (checkout user s).result = .error e) :
    (checkout user s).store = s ∧
    (checkout user s).store.carts = s.carts ∧
    (checkout user s).user = user ∧
    (checkout user s).user.walletMoney = user.walletMoney ∧
    (e = ⟨404, "User cart not found"⟩ ∨ e = ⟨400, "user cart is empty"⟩ ∨
      e = ⟨400, "User address is not set"⟩ ∨ e = ⟨400, "Wallet balance insufficient"⟩) := by
  cases hcart : Cart.findOne user.email s with
  | none =>
    have hval : checkout user s = ⟨.error ⟨404, "User cart not found"⟩, user, s⟩ := by
      unfold checkout
      rw [hcart]
      rfl
    rw [hval] at hfail ⊢
    cases hfail
    exact ⟨rfl, rfl, rfl, rfl, Or.inl rfl⟩
  | some userCart =>
    rw [checkout_of_cart user s userCart hcart] at hfail ⊢
    split_ifs at hfail ⊢
    · cases hfail
      exact ⟨rfl, rfl, rfl, rfl, Or.inr (Or.inl rfl)⟩
    · cases hfail
      exact ⟨rfl, rfl, rfl, rfl, Or.inr (Or.inr (Or.inl rfl))⟩
    · cases hfail
      exact ⟨rfl, rfl, rfl, rfl, Or.inr (Or.inr (Or.inr rfl))⟩

/-- A failing checkout (total 500, wallet 400) leaves the three carts and the wallet as
they were. -/
theorem checkout_failure_atomic_witness :
    (checkout exampleUser400 exampleStore3).store = exampleStore3 ∧
    (checkout exampleUser400 exampleStore3).store.carts
      = [exampleCart, exampleCart500, exampleCartEmpty] ∧
    (checkout exampleUser400 exampleStore3).user = exampleUser400 ∧
    (checkout exampleUser400 exampleStore3).user.walletMoney = 400 ∧
    ((⟨400, "Wallet balance insufficient"⟩ : ApiError) = ⟨404, "User cart not found"⟩ ∨
      (⟨400, "Wallet balance insufficient"⟩ : ApiError) = ⟨400, "user cart is empty"⟩ ∨
      (⟨400, "Wallet balance insufficient"⟩ : ApiError) = ⟨400, "User address is not set"⟩ ∨
      (⟨400, "Wallet balance insufficient"⟩ : ApiError)
        = ⟨400, "Wallet balance insufficient"⟩) :=
  checkout_failure_atomic exampleUser400 exampleStore3 ⟨400, "Wallet balance insufficient"⟩
    (by rfl)

/-- C4, as the claim states it, fails at guard (4): for a cart holding one line of cost
`Infinity` and quantity 0 the total is `Infinity * 0`, which is NaN; `cartTotal <=
walletMoney` is then false, yet `cartTotal > walletMoney` is false too and the checkout
returns instead of throwing "Wallet balance insufficient". -/
theorem checkout_guard_order_counterexample :
    Cart.findOne exampleUser.email exampleStoreNaN
      = some ⟨"a@x.io", [⟨0, exampleProductInf, 0⟩], "PAYMENT_OPTION_DEFAULT"⟩ ∧
    exampleUser.hasSetNonDefaultAddress = true ∧
    checkout.cartTotal [⟨0, exampleProductInf, 0⟩] = .nan ∧
    JSNumber.le (checkout.cartTotal [⟨0, exampleProductInf, 0⟩]) exampleUser.walletMoney
      = false ∧
    (checkout exampleUser exampleStoreNaN).result
      = .ok ⟨"a@x.io", [], "PAYMENT_OPTION_DEFAULT"⟩ := by
  refine ⟨by decide, by decide, by decide, by decide, ?_⟩
  rfl

/-- C4 (checkout guard order), amended: the outcome of `checkout` is decided by the first
violated guard, in the order: no cart (404 "User cart not found"); cart without items (400
"user cart is empty", whatever the address predicate and the wallet); address predicate
false (400 "User address is not set", whatever the wallet); `cartTotal > walletMoney` (400
"Wallet balance insufficient"); when `cartTotal > walletMoney` is false, as it is when
`cartTotal <= walletMoney` and when `cartTotal` is NaN, the call returns. Hence a user who
has a cart and whose address predicate is false always gets a 400 error. -/
theorem checkout_guard_order (user : User) (s : Store) :
    (Cart.findOne user.email s = none →
      (checkout user s).result = .error ⟨404, "User cart not found"⟩) ∧
    (∀ userCart, Cart.findOne user.email s = some userCart →
      (userCart.cartItems = [] →
        (checkout user s).result = .error ⟨400, "user cart is empty"⟩) ∧
      (userCart.cartItems ≠ [] → user.hasSetNonDefaultAddress = false →
        (checkout user s).result = .error ⟨400, "User address is not set"⟩) ∧
      (userCart.cartItems ≠ [] → user.hasSetNonDefaultAddress = true →
        JSNumber.gt (checkout.cartTotal userCart.cartItems) user.walletMoney = true →
        (checkout user s).result = .error ⟨400, "Wallet balance insufficient"⟩) ∧
      (userCart.cartItems ≠ [] → user.hasSetNonDefaultAddress = true →
        JSNumber.gt (checkout.cartTotal userCart.cartItems) user.walletMoney = false →
        (checkout user s).result = .ok { userCart with cartItems := [] }) ∧
      (userCart.cartItems ≠ [] → user.hasSetNonDefaultAddress = true →
        JSNumber.le (checkout.cartTotal userCart.cartItems) user.walletMoney = true →
        (checkout user s).result = .ok { userCart with cartItems := [] }) ∧
      (user.hasSetNonDefaultAddress = false →
        ∃ e, (checkout user s).result = .error e ∧ e.statusCode = 400)) := by
  constructor
  · intro hcart
    unfold checkout
    rw [hcart]
    rfl
  · intro userCart hcart
    rw [checkout_of_cart user s userCart hcart]
    refine ⟨?_, ?_, ?_, ?_, ?_, ?_⟩
    · intro h0
      rw [if_pos h0]
    · intro h0 ha
      rw [if_neg h0, if_pos ha]
    · intro h0 ha hgt
      rw [if_neg h0, if_neg (by simp [ha]), if_pos hgt]
    · intro h0 ha hngt
      rw [if_neg h0, if_neg (by simp [ha]), if_neg (by simp [hngt])]
    · intro h0 ha hle
      rw [if_neg h0, if_neg (by simp [ha]),
        if_neg (by simp [JSNumber.gt_of_le _ _ hle])]
    · intro ha
      by_cases h0 : userCart.cartItems = []
      · rw [if_pos h0]
        exact ⟨_, rfl, rfl⟩
      · rw [if_neg h0, if_pos ha]
        exact ⟨_, rfl, rfl⟩

/-- A user with an empty cart and no address gets the empty-cart error, not the address
error. -/
theorem checkout_guard_order_witness :
    (checkout exampleUserNoAddress exampleStore3).result
      = .error ⟨400, "user cart is empty"⟩ :=
  ((checkout_guard_order exampleUserNoAddress exampleStore3).2 exampleCartEmpty
    (by decide)).1 (by decide)

/-! ## Contract of addProductToCart -/

/-- C5 (addProductToCart success postcondition): when the user's cart exists and has no
item of product id `productId`, and `productId` is found in the Product collection, then
for every quantity (any number: negative, zero, fractional, infinite or NaN)
`addProductToCart` returns the cart whose item list is the prior list followed by one new
item holding the product found and the given quantity, and that cart is the one read back
from the store. -/
theorem addProductToCart_success (config : Config) (accepted : Bool) (user : User)
    (productId : String) (quantity : JSNumber) (s : Store) (cart : Cart) (product : Product)
    (hcart : Cart.findOne user.email s = some cart)
    (hnew : ∀ item ∈ cart.cartItems, item.product._id ≠ productId)
    (hprod : Product.findOne productId s = some product) :
    (addProductToCart config accepted user productId quantity s).result
      = .ok { cart with cartItems := cart.cartItems ++ [⟨s.nextId, product, quantity⟩] } ∧
    Cart.findOne user.email (addProductToCart config accepted user productId quantity s).store
      = some { cart with cartItems := cart.cartItems ++ [⟨s.nextId, product, quantity⟩] } ∧
    product ∈ s.products ∧ product._id = productId := by
  have hdup : ¬ ∃ item ∈ cart.cartItems, item.product._id = productId := by
    rintro ⟨item, hmem, hid⟩
    exact hnew item hmem hid
  have hfind1 : Cart.findOne user.email { s with nextId := s.nextId + 1 } = some cart := hcart
  have hsaved := Cart.findOne_save
    { cart with cartItems := cart.cartItems ++ [⟨s.nextId, product, quantity⟩] }
    hfind1 (show cart.email = user.email from Cart.findOne_email hcart)
  rw [addProductToCart_of_getCart config accepted user productId quantity s s cart
    (addProductToCart.getCart_of_cart config accepted user s cart hcart), if_neg hdup, hprod]
  exact ⟨rfl, hsaved, List.mem_of_find?_eq_some hprod, Product.findOne_id hprod⟩

/-- Adding product `p2` with quantity -1.5 to a cart holding one line of `p1`: the line of
`p2` is appended with quantity -1.5 and the line of `p1` is kept. -/
theorem addProductToCart_success_witness :
    (addProductToCart exampleConfig true exampleUser400 "p2" exampleFraction exampleStore3).result
      = .ok ⟨"b@x.io", [⟨0, exampleProductA, 5⟩, ⟨3, exampleProductB, exampleFraction⟩],
          "PAYMENT_OPTION_DEFAULT"⟩ ∧
    Cart.findOne "b@x.io"
        (addProductToCart exampleConfig true exampleUser400 "p2" exampleFraction
          exampleStore3).store
      = some ⟨"b@x.io", [⟨0, exampleProductA, 5⟩, ⟨3, exampleProductB, exampleFraction⟩],
          "PAYMENT_OPTION_DEFAULT"⟩ ∧
    exampleProductB ∈ exampleStore3.products ∧ exampleProductB._id = "p2" :=
  addProductToCart_success exampleConfig true exampleUser400 "p2" exampleFraction exampleStore3
    exampleCart500 exampleProductB (by decide) (by decide) (by decide)

/-- C6 (addProductToCart rejects duplicates): when the user's cart has an item of product
id `productId`, `addProductToCart` throws 400 "Product already in cart..." for every
quantity, whatever the Product collection holds, and the store is unchanged; and whenever
a call of `addProductToCart` has returned, a second call for the same user and product id
throws that error and leaves the store as the first call left it. -/
theorem addProductToCart_duplicate (config : Config) (user : User) (productId : String)
    (s : Store) :
    (∀ cart, Cart.findOne user.email s = some cart →
      (∃ item ∈ cart.cartItems, item.product._id = productId) →
      ∀ (accepted : Bool) (quantity : JSNumber),
        (addProductToCart config accepted user productId quantity s).result
          = .error ⟨400,
            "Product already in cart. Use the cart sidebar to update or remove product from cart"⟩ ∧
        (addProductToCart config accepted user productId quantity s).store = s) ∧
    (∀ (accepted : Bool) (quantity : JSNumber) (cart1 : Cart),
      (addProductToCart config accepted user productId quantity s).result = .ok cart1 →
      ∀ (accepted2 : Bool) (quantity2 : JSNumber),
        (addProductToCart config accepted2 user productId quantity2
          (addProductToCart config accepted user productId quantity s).store).result
          = .error ⟨400,
            "Product already in cart. Use the cart sidebar to update or remove product from cart"⟩ ∧
        (addProductToCart config accepted2 user productId quantity2
          (addProductToCart config accepted user productId quantity s).store).store
          = (addProductToCart config accepted user productId quantity s).store) := by
  have key : ∀ (s0 : Store) (cart : Cart), Cart.findOne user.email s0 = some cart →
      (∃ item ∈ cart.cartItems, item.product._id = productId) →
      ∀ (accepted : Bool) (quantity : JSNumber),
        (addProductToCart config accepted user productId quantity s0).result
          = .error ⟨400,
            "Product already in cart. Use the cart sidebar to update or remove product from cart"⟩ ∧
        (addProductToCart config accepted user productId quantity s0).store = s0 := by
    intro s0 cart hcart hdup accepted quantity
    rw [addProductToCart_of_getCart config accepted user productId quantity s0 s0 cart
      (addProductToCart.getCart_of_cart config accepted user s0 cart hcart), if_pos hdup]
    exact ⟨rfl, rfl⟩
  refine ⟨key s, ?_⟩
  intro accepted quantity cart1 hok accepted2 quantity2
  obtain ⟨hfind, hdup⟩ :=
    addProductToCart_ok_inv config accepted user productId quantity s cart1 hok
  exact key _ cart1 hfind hdup accepted2 quantity2

/-- Adding `p1` to a cart that holds a line of `p1` fails and changes nothing, though the
quantity differs from the one of the line; adding `p2` twice in a row fails the second
time and leaves the store as the first call left it. -/
theorem addProductToCart_duplicate_witness :
    ((addProductToCart exampleConfig true exampleUser400 "p1" 7 exampleStore3).result
      = .error ⟨400,
        "Product already in cart. Use the cart sidebar to update or remove product from cart"⟩ ∧
    (addProductToCart exampleConfig true exampleUser400 "p1" 7 exampleStore3).store
      = exampleStore3) ∧
    ((addProductToCart exampleConfig true exampleUser400 "p2" 4
        (addProductToCart exampleConfig true exampleUser400 "p2" 1 exampleStore3).store).result
      = .error ⟨400,
        "Product already in cart. Use the cart sidebar to update or remove product from cart"⟩ ∧
    (addProductToCart exampleConfig true exampleUser400 "p2" 4
        (addProductToCart exampleConfig true exampleUser400 "p2" 1 exampleStore3).store).store
      = (addProductToCart exampleConfig true exampleUser400 "p2" 1 exampleStore3).store) :=
  ⟨(addProductToCart_duplicate exampleConfig exampleUser400 "p1" exampleStore3).1
      exampleCart500 (by decide) (by decide) true 7,
    (addProductToCart_duplicate exampleConfig exampleUser400 "p2" exampleStore3).2 true 1
      ⟨"b@x.io", [⟨0, exampleProductA, 5⟩, ⟨3, exampleProductB, 1⟩], "PAYMENT_OPTION_DEFAULT"⟩
      (by rfl) true 4⟩

/-- C7, as the claim states it, fails: for a user without a cart and a product id absent
from the Product collection, when the store rejects the creation of the cart the call
throws 500 and not 400. -/
theorem addProductToCart_unknown_product_counterexample :
    (∀ p ∈ exampleStore3.products, p._id ≠ "p9") ∧
    Cart.findOne exampleUserNoCart.email exampleStore3 = none ∧
    (addProductToCart exampleConfig false exampleUserNoCart "p9" 1 exampleStore3).result
      = .error ⟨500, "500 Internal server error"⟩ ∧
    ¬ ∃ e, (addProductToCart exampleConfig false exampleUserNoCart "p9" 1 exampleStore3).result
        = .error e ∧ e.statusCode = 400 := by
  refine ⟨by decide, by decide, rfl, ?_⟩
  rintro ⟨e, he, h400⟩
  have h500 : (addProductToCart exampleConfig false exampleUserNoCart "p9" 1
      exampleStore3).result = .error ⟨500, "500 Internal server error"⟩ := rfl
  rw [h500] at he
  cases he
  exact absurd h400 (by decide)

/-- C7 (addProductToCart rejects unknown products), amended: when `productId` is absent
from the Product collection and not in the user's cart, `addProductToCart` throws 400
"Product doesn't exist in db" if the user's cart exists or the store accepts its creation,
and throws 500 if the cart has to be created and the store rejects the creation. In every
case no cart item is created: an existing cart is left as it was (the whole store is), and
a cart created by the call has no items. -/
theorem addProductToCart_unknown_product (config : Config) (accepted : Bool) (user : User)
    (productId : String) (quantity : JSNumber) (s : Store)
    (habsent : ∀ p ∈ s.products, p._id ≠ productId)
    (hnew : ∀ cart, Cart.findOne user.email s = some cart →
      ∀ item ∈ cart.cartItems, item.product._id ≠ productId) :
    (∀ cart, Cart.findOne user.email s = some cart →
      (addProductToCart config accepted user productId quantity s).result
        = .error ⟨400, "Product doesn't exist in db"⟩ ∧
      (addProductToCart config accepted user productId quantity s).store = s) ∧
    (Cart.findOne user.email s = none → accepted = true →
      (addProductToCart config accepted user productId quantity s).result
        = .error ⟨400, "Product doesn't exist in db"⟩ ∧
      (addProductToCart config accepted user productId quantity s).store
        = { s with carts := s.carts ++ [⟨user.email, [], config.default_payment_option⟩] }) ∧
    (Cart.findOne user.email s = none → accepted = false →
      (addProductToCart config accepted user productId quantity s).result
        = .error ⟨500, "500 Internal server error"⟩ ∧
      (addProductToCart config accepted user productId quantity s).store = s) ∧
    (∀ c, Cart.findOne user.email
        (addProductToCart config accepted user productId quantity s).store = some c →
      c.cartItems = ((Cart.findOne user.email s).map Cart.cartItems).getD []) := by
  have hprod : Product.findOne productId s = none :=
    (Product.findOne_eq_none_iff productId s).mpr habsent
  have h1 : ∀ cart, Cart.findOne user.email s = some cart →
      addProductToCart config accepted user productId quantity s
        = ⟨.error ⟨400, "Product doesn't exist in db"⟩, s⟩ := by
    intro cart hcart
    have hdup : ¬ ∃ item ∈ cart.cartItems, item.product._id = productId := by
      rintro ⟨item, hmem, hid⟩
      exact hnew cart hcart item hmem hid
    rw [addProductToCart_of_getCart config accepted user productId quantity s s cart
      (addProductToCart.getCart_of_cart config accepted user s cart hcart), if_neg hdup, hprod]
  have h2 : Cart.findOne user.email s = none → accepted = true →
      addProductToCart config accepted user productId quantity s
        = ⟨.error ⟨400, "Product doesn't exist in db"⟩,
          { s with carts := s.carts ++ [⟨user.email, [], config.default_payment_option⟩] }⟩ := by
    intro hnone hacc
    subst hacc
    have hprod1 : Product.findOne productId
        { s with carts := s.carts ++ [addProductToCart.newCart config user] } = none := hprod
    rw [addProductToCart_of_getCart config true user productId quantity s _ _
      (addProductToCart.getCart_created config user s hnone),
      if_neg (by simp [addProductToCart.newCart]), hprod1]
    rfl
  have h3 : Cart.findOne user.email s = none → accepted = false →
      addProductToCart config accepted user productId quantity s
        = ⟨.error ⟨500, "500 Internal server error"⟩, s⟩ := by
    intro hnone hacc
    subst hacc
    unfold addProductToCart
    rw [addProductToCart.getCart_rejected config user s hnone]
  refine ⟨fun cart hcart => ?_, fun hnone hacc => ?_, fun hnone hacc => ?_, ?_⟩
  · rw [h1 cart hcart]
    exact ⟨rfl, rfl⟩
  · rw [h2 hnone hacc]
    exact ⟨rfl, rfl⟩
  · rw [h3 hnone hacc]
    exact ⟨rfl, rfl⟩
  · intro c hc
    cases hcart : Cart.findOne user.email s with
    | some cart =>
      rw [h1 cart hcart] at hc
      dsimp only at hc
      rw [hcart] at hc
      cases hc
      rfl
    | none =>
      cases accepted with
      | true =>
        rw [h2 hcart rfl] at hc
        dsimp only at hc
        rw [Cart.findOne_append_of_none _ hcart rfl] at hc
        cases hc
        rfl
      | false =>
        rw [h3 hcart rfl] at hc
        dsimp only at hc
        rw [hcart] at hc
        cases hc

/-- An unknown product id `p9` for the owner of a cart: 400, and the store is unchanged. -/
theorem addProductToCart_unknown_product_witness :
    (addProductToCart exampleConfig true exampleUser400 "p9" 1 exampleStore3).result
      = .error ⟨400, "Product doesn't exist in db"⟩ ∧
    (addProductToCart exampleConfig true exampleUser400 "p9" 1 exampleStore3).store
      = exampleStore3 :=
  (addProductToCart_unknown_product exampleConfig true exampleUser400 "p9" 1 exampleStore3
    (by decide) (by decide)).1 exampleCart500 (by decide)

/-- C8 (addProductToCart creates the cart lazily): for a user without a cart and a
`productId` found in the Product collection, when the store accepts the creation the call
returns the new cart (the user's email, the default payment option of the configuration,
the single new item), the Carts collection afterwards is the prior one followed by that
cart, and that cart is the only one of the user's email; when the store rejects the
creation the call throws 500 and the store is unchanged. -/
theorem addProductToCart_creates_cart (config : Config) (user : User) (productId : String)
    (quantity : JSNumber) (s : Store) (product : Product)
    (hnone : Cart.findOne user.email s = none)
    (hprod : Product.findOne productId s = some product) :
    (addProductToCart config true user productId quantity s).result
      = .ok ⟨user.email, [⟨s.nextId, product, quantity⟩], config.default_payment_option⟩ ∧
    (addProductToCart config true user productId quantity s).store.carts
      = s.carts ++ [⟨user.email, [⟨s.nextId, product, quantity⟩],
          config.default_payment_option⟩] ∧
    (addProductToCart config true user productId quantity s).store.carts.filter
        (fun c => decide (c.email = user.email))
      = [⟨user.email, [⟨s.nextId, product, quantity⟩], config.default_payment_option⟩] ∧
    (addProductToCart config false user productId quantity s).result
      = .error ⟨500, "500 Internal server error"⟩ ∧
    (addProductToCart config false user productId quantity s).store = s := by
  have hprod1 : Product.findOne productId
      { s with carts := s.carts ++ [addProductToCart.newCart config user] } = some product :=
    hprod
  have hval : addProductToCart config true user productId quantity s
      = ⟨.ok ⟨user.email, [⟨s.nextId, product, quantity⟩], config.default_payment_option⟩,
          Cart.save ⟨user.email, [⟨s.nextId, product, quantity⟩], config.default_payment_option⟩
            { carts := s.carts ++ [addProductToCart.newCart config user],
              products := s.products, nextId := s.nextId + 1 }⟩ := by
    rw [addProductToCart_of_getCart config true user productId quantity s _ _
      (addProductToCart.getCart_created config user s hnone),
      if_neg (by simp [addProductToCart.newCart]), hprod1]
    rfl
  have hcarts : (addProductToCart config true user productId quantity s).store.carts
      = s.carts ++ [⟨user.email, [⟨s.nextId, product, quantity⟩],
          config.default_payment_option⟩] := by
    rw [hval]
    exact Cart.replace_append_of_none
      ⟨user.email, [⟨s.nextId, product, quantity⟩], config.default_payment_option⟩
      (addProductToCart.newCart config user) rfl s.carts hnone
  have hfilter : s.carts.filter (fun c => decide (c.email = user.email)) = [] := by
    rw [List.filter_eq_nil_iff]
    intro c hc
    have := List.find?_eq_none.mp hnone c hc
    simpa using this
  have hrej : addProductToCart config false user productId quantity s
      = ⟨.error ⟨500, "500 Internal server error"⟩, s⟩ := by
    unfold addProductToCart
    rw [addProductToCart.getCart_rejected config user s hnone]
  refine ⟨by rw [hval], hcarts, ?_, by rw [hrej], by rw [hrej]⟩
  rw [hcarts, List.filter_append, hfilter]
  simp

/-- A user without a cart adds `p1`: a cart with the default payment option and the one
item is appended to the three carts of the store; with the creation rejected, 500. -/
theorem addProductToCart_creates_cart_witness :
    (addProductToCart exampleConfig true exampleUserNoCart "p1" 2 exampleStore3).result
      = .ok ⟨"d@x.io", [⟨3, exampleProductA, 2⟩], "PAYMENT_OPTION_DEFAULT"⟩ ∧
    (addProductToCart exampleConfig true exampleUserNoCart "p1" 2 exampleStore3).store.carts
      = [exampleCart, exampleCart500, exampleCartEmpty] ++
        [⟨"d@x.io", [⟨3, exampleProductA, 2⟩], "PAYMENT_OPTION_DEFAULT"⟩] ∧
    (addProductToCart exampleConfig true exampleUserNoCart "p1" 2
        exampleStore3).store.carts.filter (fun c => decide (c.email = "d@x.io"))
      = [⟨"d@x.io", [⟨3, exampleProductA, 2⟩], "PAYMENT_OPTION_DEFAULT"⟩] ∧
    (addProductToCart exampleConfig false exampleUserNoCart "p1" 2 exampleStore3).result
      = .error ⟨500, "500 Internal server error"⟩ ∧
    (addProductToCart exampleConfig false exampleUserNoCart "p1" 2 exampleStore3).store
      = exampleStore3 :=
  addProductToCart_creates_cart exampleConfig exampleUserNoCart "p1" 2 exampleStore3
    exampleProductA (by decide) (by decide)

/-! ## Contract of updateProductInCart -/

/-- C9 (updateProductInCart success postcondition): when the user's cart has an item of
product id `productId` and `productId` is found in the Product collection, the call
returns, and stores, the cart whose item list is the prior one with the quantity of the
first item of that product id overwritten by the given quantity: the items before it and
after it are unchanged, so the length, the products and their order are as before. -/
theorem updateProductInCart_success (user : User) (productId : String) (quantity : JSNumber)
    (s : Store) (cart : Cart) (product : Product)
    (hcart : Cart.findOne user.email s = some cart)
    (hin : ∃ item ∈ cart.cartItems, item.product._id = productId)
    (hprod : Product.findOne productId s = some product) :
    ∃ pre item post,
      cart.cartItems = pre ++ item :: post ∧
      (∀ x ∈ pre, x.product._id ≠ productId) ∧ item.product._id = productId ∧
      (updateProductInCart user productId quantity s).result
        = .ok { cart with cartItems := pre ++ { item with quantity := quantity } :: post } ∧
      Cart.findOne user.email (updateProductInCart user productId quantity s).store
        = some { cart with cartItems := pre ++ { item with quantity := quantity } :: post } ∧
      (pre ++ { item with quantity := quantity } :: post).length = cart.cartItems.length ∧
      (pre ++ { item with quantity := quantity } :: post).map CartItem.product
        = cart.cartItems.map CartItem.product ∧
      ((pre ++ { item with quantity := quantity } :: post)[pre.length]?).map CartItem.quantity
        = some quantity ∧
      (∀ j, j ≠ pre.length →
        (pre ++ { item with quantity := quantity } :: post)[j]? = cart.cartItems[j]?) := by
  cases hloop : updateProductInCart.loop productId quantity cart.cartItems with
  | none =>
    obtain ⟨item, hmem, hid⟩ := hin
    exact absurd hid
      ((updateProductInCart.loop_eq_none_iff productId quantity cart.cartItems).mp hloop item hmem)
  | some cartItems1 =>
    obtain ⟨pre, item, post, hsplit, hpre, hid, h1⟩ :=
      updateProductInCart.loop_eq_some productId quantity cart.cartItems cartItems1 hloop
    subst h1
    have hsaved := Cart.findOne_save
      { cart with cartItems := pre ++ { item with quantity := quantity } :: post }
      hcart (show cart.email = user.email from Cart.findOne_email hcart)
    refine ⟨pre, item, post, hsplit, hpre, hid, ?_, ?_, ?_, ?_, ?_, ?_⟩
    · rw [updateProductInCart_of_cart user productId quantity s cart hcart, hprod, hloop]
    · rw [updateProductInCart_of_cart user productId quantity s cart hcart, hprod, hloop]
      exact hsaved
    · rw [hsplit]
      simp
    · rw [hsplit]
      simp
    · rw [List.getElem?_append_right (Nat.le_refl _), Nat.sub_self]
      simp
    · intro j hj
      rw [hsplit]
      rcases Nat.lt_or_gt_of_ne hj with hlt | hgt
      · rw [List.getElem?_append_left hlt, List.getElem?_append_left hlt]
      · have hle : pre.length ≤ j := Nat.le_of_lt hgt
        rw [List.getElem?_append_right hle, List.getElem?_append_right hle]
        obtain ⟨k, hk⟩ : ∃ k, j - pre.length = k + 1 := ⟨j - pre.length - 1, by omega⟩
        rw [hk]
        rfl

/-- Updating `p2` to quantity 9 in a cart holding `p1` and `p2`, two of each. -/
theorem updateProductInCart_success_witness :
    ∃ pre item post,
      exampleCart.cartItems = pre ++ item :: post ∧
      (∀ x ∈ pre, x.product._id ≠ "p2") ∧ item.product._id = "p2" ∧
      (updateProductInCart exampleUser "p2" 9 exampleStore3).result
        = .ok { exampleCart with cartItems := pre ++ { item with quantity := 9 } :: post } ∧
      Cart.findOne exampleUser.email (updateProductInCart exampleUser "p2" 9 exampleStore3).store
        = some { exampleCart with cartItems := pre ++ { item with quantity := 9 } :: post } ∧
      (pre ++ { item with quantity := 9 } :: post).length = exampleCart.cartItems.length ∧
      (pre ++ { item with quantity := 9 } :: post).map CartItem.product
        = exampleCart.cartItems.map CartItem.product ∧
      ((pre ++ { item with quantity := 9 } :: post)[pre.length]?).map CartItem.quantity
        = some 9 ∧
      (∀ j, j ≠ pre.length →
        (pre ++ { item with quantity := 9 } :: post)[j]? = exampleCart.cartItems[j]?) :=
  updateProductInCart_success exampleUser "p2" 9 exampleStore3 exampleCart exampleProductB
    (by decide) (by decide) (by decide)

/-- C10 (updateProductInCart failure conditions): the call throws exactly when the user
has no cart, or `productId` is absent from the Product collection, or no item of the cart
has product id `productId`; every error thrown has status 400 and leaves the store
unchanged; and the checks are made in that order: no cart gives "User does not have a
cart...", then an absent product gives "Product doesn't exist in database" (even when the
cart holds an item of that product id), then a product that is not in the cart gives
"Product not in Cart". -/
theorem updateProductInCart_failure (user : User) (productId : String) (quantity : JSNumber)
    (s : Store) :
    ((∃ e, (updateProductInCart user productId quantity s).result = .error e ∧
        e.statusCode = 400) ↔
      (Cart.findOne user.email s = none ∨ (∀ p ∈ s.products, p._id ≠ productId) ∨
        ∀ cart, Cart.findOne user.email s = some cart →
          ∀ item ∈ cart.cartItems, item.product._id ≠ productId)) ∧
    (∀ e, (updateProductInCart user productId quantity s).result = .error e →
      e.statusCode = 400 ∧ (updateProductInCart user productId quantity s).store = s) ∧
    (Cart.findOne user.email s = none →
      (updateProductInCart user productId quantity s).result = .error ⟨400,
        "User does not have a cart. Use POST to create cart and add a product"⟩) ∧
    (∀ cart, Cart.findOne user.email s = some cart →
      (∀ p ∈ s.products, p._id ≠ productId) →
      (updateProductInCart user productId quantity s).result
        = .error ⟨400, "Product doesn't exist in database"⟩) ∧
    (∀ cart product, Cart.findOne user.email s = some cart →
      Product.findOne productId s = some product →
      (∀ item ∈ cart.cartItems, item.product._id ≠ productId) →
      (updateProductInCart user productId quantity s).result
        = .error ⟨400, "Product not in Cart"⟩) := by
  cases hcart : Cart.findOne user.email s with
  | none =>
    have hval : updateProductInCart user productId quantity s = ⟨.error ⟨400,
        "User does not have a cart. Use POST to create cart and add a product"⟩, s⟩ := by
      unfold updateProductInCart
      rw [hcart]
      rfl
    rw [hval]
    refine ⟨⟨fun _ => Or.inl rfl, fun _ => ⟨_, rfl, rfl⟩⟩, ?_, fun _ => rfl, ?_, ?_⟩
    · intro e he
      cases he
      exact ⟨rfl, rfl⟩
    · intro cart h
      cases h
    · intro cart product h
      cases h
  | some cart =>
    rw [updateProductInCart_of_cart user productId quantity s cart hcart]
    cases hprod : Product.findOne productId s with
    | none =>
      have habsent := (Product.findOne_eq_none_iff productId s).mp hprod
      refine ⟨⟨fun _ => Or.inr (Or.inl habsent), fun _ => ⟨_, rfl, rfl⟩⟩, ?_, ?_,
        fun _ _ _ => rfl, ?_⟩
      · intro e he
        cases he
        exact ⟨rfl, rfl⟩
      · intro h
        cases h
      · intro c product _ h
        cases h
    | some product =>
      have hpresent : ¬ ∀ p ∈ s.products, p._id ≠ productId := by
        intro h
        rw [(Product.findOne_eq_none_iff productId s).mpr h] at hprod
        cases hprod
      cases hloop : updateProductInCart.loop productId quantity cart.cartItems with
      | none =>
        have hnot := (updateProductInCart.loop_eq_none_iff productId quantity cart.cartItems).mp
          hloop
        refine ⟨⟨fun _ => Or.inr (Or.inr ?_), fun _ => ⟨_, rfl, rfl⟩⟩, ?_, ?_, ?_,
          fun _ _ _ _ _ => rfl⟩
        · intro c hc
          cases hc
          exact hnot
        · intro e he
          cases he
          exact ⟨rfl, rfl⟩
        · intro h
          cases h
        · intro c _ h
          exact absurd h hpresent
      | some cartItems1 =>
        have hsome : ¬ ∀ item ∈ cart.cartItems, item.product._id ≠ productId := by
          intro h
          rw [(updateProductInCart.loop_eq_none_iff productId quantity cart.cartItems).mpr h]
            at hloop
          cases hloop
        refine ⟨⟨?_, ?_⟩, ?_, ?_, ?_, ?_⟩
        · rintro ⟨e, he, -⟩
          cases he
        · rintro (h | h | h)
          · cases h
          · exact absurd h hpresent
          · exact absurd (h cart rfl) hsome
        · intro e he
          cases he
        · intro h
          cases h
        · intro c _ h
          exact absurd h hpresent
        · intro c p hc _ h
          cases hc
          exact absurd h hsome

/-- A product that is in the cart but no longer in the Product collection cannot be
updated: the product check comes before the scan of the cart. -/
theorem updateProductInCart_failure_witness :
    (updateProductInCart exampleUser "p1" 3 exampleStoreStale).result
      = .error ⟨400, "Product doesn't exist in database"⟩ :=
  (updateProductInCart_failure exampleUser "p1" 3 exampleStoreStale).2.2.2.1 exampleCart
    (by decide) (by decide)

/-! ## Contract of deleteProductFromCart -/

/-- C11 (deleteProductFromCart success postcondition): when the user's cart has an item of
product id `productId` and the item identifiers of the cart are pairwise distinct, the
call returns the acknowledgement of the store and the cart read back is the prior one
without the first item of that product id: the items before it and after it are kept, in
order, so the length drops by one and a one-item cart is left empty. -/
theorem deleteProductFromCart_success (user : User) (productId : String) (s : Store)
    (cart : Cart)
    (hcart : Cart.findOne user.email s = some cart)
    (hin : ∃ item ∈ cart.cartItems, item.product._id = productId)
    (hids : (cart.cartItems.map CartItem._id).Nodup) :
    ∃ pre item post,
      cart.cartItems = pre ++ item :: post ∧
      (∀ x ∈ pre, x.product._id ≠ productId) ∧ item.product._id = productId ∧
      (deleteProductFromCart user productId s).result = .ok .acknowledged ∧
      Cart.findOne user.email (deleteProductFromCart user productId s).store
        = some { cart with cartItems := pre ++ post } ∧
      (pre ++ post).length + 1 = cart.cartItems.length ∧
      (cart.cartItems.length = 1 → pre ++ post = []) := by
  cases hfilter : cart.cartItems.filter (fun item => decide (item.product._id = productId)) with
  | nil =>
    obtain ⟨item, hmem, hid⟩ := hin
    have := List.filter_eq_nil_iff.mp hfilter item hmem
    simp [hid] at this
  | cons first rest =>
    obtain ⟨pre, post, hsplit, hpre, hfirst, -⟩ := List.filter_eq_cons_iff.mp hfilter
    have hval := deleteProductFromCart_of_cart user productId s cart hcart
    rw [hfilter] at hval
    have hread := Cart.findOne_updateOne first._id hcart
    rw [hsplit] at hids
    have hkeep := CartItem.filter_id_ne pre post first hids
    refine ⟨pre, first, post, hsplit, ?_, by simpa using hfirst, ?_, ?_, ?_, ?_⟩
    · intro x hx
      simpa using hpre x hx
    · rw [hval]
    · rw [hval]
      have hread1 : Cart.findOne user.email
          { s with carts := Cart.pull user.email first._id s.carts }
          = some { cart with cartItems :=
              cart.cartItems.filter (fun item => decide (item._id ≠ first._id)) } := hread
      rw [hread1]
      congr 2
      rw [hsplit]
      exact hkeep
    · rw [hsplit]
      simp
      omega
    · intro hlen
      rw [hsplit] at hlen
      simp at hlen
      have h1 : pre.length = 0 := by omega
      have h2 : post.length = 0 := by omega
      rw [List.length_eq_zero.mp h1, List.length_eq_zero.mp h2]
      rfl

/-- Deleting `p2`, the only line of a one-item cart, leaves that cart without items. -/
theorem deleteProductFromCart_success_witness :
    ∃ pre item post,
      exampleCartOne.cartItems = pre ++ item :: post ∧
      (∀ x ∈ pre, x.product._id ≠ "p2") ∧ item.product._id = "p2" ∧
      (deleteProductFromCart exampleUserOne "p2" exampleStoreOne).result = .ok .acknowledged ∧
      Cart.findOne exampleUserOne.email
          (deleteProductFromCart exampleUserOne "p2" exampleStoreOne).store
        = some { exampleCartOne with cartItems := pre ++ post } ∧
      (pre ++ post).length + 1 = exampleCartOne.cartItems.length ∧
      (exampleCartOne.cartItems.length = 1 → pre ++ post = []) :=
  deleteProductFromCart_success exampleUserOne "p2" exampleStoreOne exampleCartOne
    (by decide) (by decide) (by decide)

/-- C12 (deleteProductFromCart failure conditions): the call throws 400 "User does not
have cart" when the user has no cart and 400 "Product not in cart" when the cart has no
item of product id `productId`; it throws in no other case; every error has status 400
and leaves the store, hence the Carts collection, unchanged. -/
theorem deleteProductFromCart_failure (user : User) (productId : String) (s : Store) :
    (Cart.findOne user.email s = none →
      (deleteProductFromCart user productId s).result
        = .error ⟨400, "User does not have cart"⟩) ∧
    (∀ cart, Cart.findOne user.email s = some cart →
      (∀ item ∈ cart.cartItems, item.product._id ≠ productId) →
      (deleteProductFromCart user productId s).result
        = .error ⟨400, "Product not in cart"⟩) ∧
    ((∃ e, (deleteProductFromCart user productId s).result = .error e) ↔
      (Cart.findOne user.email s = none ∨
        ∃ cart, Cart.findOne user.email s = some cart ∧
          ∀ item ∈ cart.cartItems, item.product._id ≠ productId)) ∧
    (∀ e, (deleteProductFromCart user productId s).result = .error e →
      e.statusCode = 400 ∧ (deleteProductFromCart user productId s).store = s ∧
      (deleteProductFromCart user productId s).store.carts = s.carts) := by
  cases hcart : Cart.findOne user.email s with
  | none =>
    have hval : deleteProductFromCart user productId s
        = ⟨.error ⟨400, "User does not have cart"⟩, s⟩ := by
      unfold deleteProductFromCart
      rw [hcart]
      rfl
    rw [hval]
    refine ⟨fun _ => rfl, ?_, ⟨fun _ => Or.inl rfl, fun _ => ⟨_, rfl⟩⟩, ?_⟩
    · intro cart h
      cases h
    · intro e he
      cases he
      exact ⟨rfl, rfl, rfl⟩
  | some cart =>
    rw [deleteProductFromCart_of_cart user productId s cart hcart]
    cases hfilter : cart.cartItems.filter (fun item => decide (item.product._id = productId))
      with
    | nil =>
      have hnot : ∀ item ∈ cart.cartItems, item.product._id ≠ productId := by
        intro item hmem
        simpa using List.filter_eq_nil_iff.mp hfilter item hmem
      refine ⟨?_, fun _ _ _ => rfl, ⟨fun _ => Or.inr ⟨cart, rfl, hnot⟩, fun _ => ⟨_, rfl⟩⟩, ?_⟩
      · intro h
        cases h
      · intro e he
        cases he
        exact ⟨rfl, rfl, rfl⟩
    | cons first rest =>
      have hmem : first ∈ cart.cartItems.filter
          (fun item => decide (item.product._id = productId)) := by
        rw [hfilter]
        exact List.mem_cons_self _ _
      have hfirst : first ∈ cart.cartItems ∧ first.product._id = productId := by
        simpa using List.mem_filter.mp hmem
      refine ⟨?_, ?_, ⟨?_, ?_⟩, ?_⟩
      · intro h
        cases h
      · intro c hc hnot
        cases hc
        exact absurd hfirst.2 (hnot first hfirst.1)
      · rintro ⟨e, he⟩
        cases he
      · rintro (h | ⟨c, hc, hnot⟩)
        · cases h
        · cases hc
          exact absurd hfirst.2 (hnot first hfirst.1)
      · intro e he
        cases he

/-- Deleting `p1` from a cart that holds only `p2` fails and changes nothing. -/
theorem deleteProductFromCart_failure_witness :
    (deleteProductFromCart exampleUserOne "p1" exampleStoreOne).result
      = .error ⟨400, "Product not in cart"⟩ :=
  (deleteProductFromCart_failure exampleUserOne "p1" exampleStoreOne).2.1 exampleCartOne
    (by decide) (by decide)

/-! ## Contract of getCartByUser -/

/-- C13 (getCartByUser): when the Carts collection holds a cart of the user's email the
call returns such a cart (the first one, which is the only one when carts are unique per
email); when it holds none the call throws 404 "User does not have a cart"; in both cases
the store after the call is the store before it. -/
theorem getCartByUser_spec (user : User) (s : Store) :
    (∀ cart, Cart.findOne user.email s = some cart →
      (getCartByUser user s).result = .ok cart ∧ cart ∈ s.carts ∧ cart.email = user.email) ∧
    ((∃ c ∈ s.carts, c.email = user.email) →
      ∃ cart ∈ s.carts, cart.email = user.email ∧ (getCartByUser user s).result = .ok cart) ∧
    (∀ c ∈ s.carts, c.email = user.email →
      (∀ d ∈ s.carts, d.email = user.email → d = c) →
      (getCartByUser user s).result = .ok c) ∧
    ((∀ c ∈ s.carts, c.email ≠ user.email) →
      (getCartByUser user s).result = .error ⟨404, "User does not have a cart"⟩) ∧
    (getCartByUser user s).store = s := by
  have hstore : (getCartByUser user s).store = s := by
    unfold getCartByUser
    cases Cart.findOne user.email s <;> rfl
  have hfound : ∀ cart, Cart.findOne user.email s = some cart →
      (getCartByUser user s).result = .ok cart ∧ cart ∈ s.carts ∧ cart.email = user.email := by
    intro cart hcart
    refine ⟨?_, List.mem_of_find?_eq_some hcart, Cart.findOne_email hcart⟩
    unfold getCartByUser
    rw [hcart]
  have hex : (∃ c ∈ s.carts, c.email = user.email) →
      ∃ cart, Cart.findOne user.email s = some cart := by
    rintro ⟨c, hc, he⟩
    cases hfind : Cart.findOne user.email s with
    | some cart => exact ⟨cart, rfl⟩
    | none =>
      have := List.find?_eq_none.mp hfind c hc
      simp [he] at this
  refine ⟨hfound, ?_, ?_, ?_, hstore⟩
  · intro h
    obtain ⟨cart, hcart⟩ := hex h
    obtain ⟨h1, h2, h3⟩ := hfound cart hcart
    exact ⟨cart, h2, h3, h1⟩
  · intro c hc he huniq
    obtain ⟨cart, hcart⟩ := hex ⟨c, hc, he⟩
    obtain ⟨h1, h2, h3⟩ := hfound cart hcart
    rw [← huniq cart h2 h3]
    exact h1
  · intro hnone
    have hfind : Cart.findOne user.email s = none := by
      unfold Cart.findOne
      rw [List.find?_eq_none]
      intro c hc
      simpa using hnone c hc
    unfold getCartByUser
    rw [hfind]
    rfl

/-- The owner of the second cart of the store gets that cart; the store is not touched. -/
theorem getCartByUser_spec_witness :
    (getCartByUser exampleUser400 exampleStore3).result = .ok exampleCart500 ∧
    exampleCart500 ∈ exampleStore3.carts ∧ exampleCart500.email = exampleUser400.email :=
  (getCartByUser_spec exampleUser400 exampleStore3).1 exampleCart500 (by decide)

/-! ## The carts and products after a call -/

theorem Cart.mem_replace {c1 c : Cart} :
    ∀ {carts : List Cart}, c ∈ Cart.replace c1 carts → c ∈ carts ∨ c = c1
  | [], h => by simp [Cart.replace] at h
  | d :: ds, h => by
    by_cases hd : d.email = c1.email
    · rw [Cart.replace, if_pos hd] at h
      rcases List.mem_cons.mp h with rfl | h
      · exact Or.inr rfl
      · exact Or.inl (List.mem_cons_of_mem _ h)
    · rw [Cart.replace, if_neg hd] at h
      rcases List.mem_cons.mp h with rfl | h
      · exact Or.inl (List.mem_cons_self _ _)
      · rcases Cart.mem_replace h with h | h
        · exact Or.inl (List.mem_cons_of_mem _ h)
        · exact Or.inr h

theorem Cart.mem_pull {email : String} {id : Nat} {c : Cart} :
    ∀ {carts : List Cart}, c ∈ Cart.pull email id carts →
      c ∈ carts ∨ ∃ d ∈ carts,
        c = { d with cartItems := d.cartItems.filter (fun item => decide (item._id ≠ id)) }
  | [], h => by simp [Cart.pull] at h
  | d :: ds, h => by
    by_cases hd : d.email = email
    · rw [Cart.pull, if_pos hd] at h
      rcases List.mem_cons.mp h with rfl | h
      · exact Or.inr ⟨d, List.mem_cons_self _ _, rfl⟩
      · exact Or.inl (List.mem_cons_of_mem _ h)
    · rw [Cart.pull, if_neg hd] at h
      rcases List.mem_cons.mp h with rfl | h
      · exact Or.inl (List.mem_cons_self _ _)
      · rcases Cart.mem_pull h with h | ⟨d1, hd1, h⟩
        · exact Or.inl (List.mem_cons_of_mem _ h)
        · exact Or.inr ⟨d1, List.mem_cons_of_mem _ hd1, h⟩

theorem Cart.mem_of_findOne {email : String} {s : Store} {c : Cart}
    (h : Cart.findOne email s = some c) : c ∈ s.carts :=
  List.mem_of_find?_eq_some h

/-- After `getCartByUser` the store is the one before. -/
theorem getCartByUser_store (user : User) (s : Store) : (getCartByUser user s).store = s := by
  unfold getCartByUser
  cases Cart.findOne user.email s <;> rfl

/-- After `checkout` the products are those before and every cart is a former cart or
has no items. -/
theorem checkout_store (user : User) (s : Store) :
    (checkout user s).store.products = s.products ∧
    (checkout user s).store.nextId = s.nextId ∧
    ∀ c ∈ (checkout user s).store.carts, c ∈ s.carts ∨ c.cartItems = [] := by
  cases hcart : Cart.findOne user.email s with
  | none =>
    have hval : checkout user s = ⟨.error ⟨404, "User cart not found"⟩, user, s⟩ := by
      unfold checkout
      rw [hcart]
      rfl
    rw [hval]
    exact ⟨rfl, rfl, fun c hc => Or.inl hc⟩
  | some userCart =>
    rw [checkout_of_cart user s userCart hcart]
    split_ifs
    · exact ⟨rfl, rfl, fun c hc => Or.inl hc⟩
    · exact ⟨rfl, rfl, fun c hc => Or.inl hc⟩
    · exact ⟨rfl, rfl, fun c hc => Or.inl hc⟩
    · refine ⟨rfl, rfl, fun c hc => ?_⟩
      rcases Cart.mem_replace hc with h | h
      · exact Or.inl h
      · exact Or.inr (by rw [h])

/-- After `updateProductInCart` the products are those before and every cart is a former
cart or a former cart with the quantity of one item overwritten. -/
theorem updateProductInCart_store (user : User) (productId : String) (quantity : JSNumber)
    (s : Store) :
    (updateProductInCart user productId quantity s).store.products = s.products ∧
    (updateProductInCart user productId quantity s).store.nextId = s.nextId ∧
    ∀ c ∈ (updateProductInCart user productId quantity s).store.carts,
      c ∈ s.carts ∨ ∃ d ∈ s.carts, ∃ pre item post, d.cartItems = pre ++ item :: post ∧
        c = { d with cartItems := pre ++ { item with quantity := quantity } :: post } := by
  cases hcart : Cart.findOne user.email s with
  | none =>
    have hval : updateProductInCart user productId quantity s = ⟨.error ⟨400,
        "User does not have a cart. Use POST to create cart and add a product"⟩, s⟩ := by
      unfold updateProductInCart
      rw [hcart]
      rfl
    rw [hval]
    exact ⟨rfl, rfl, fun c hc => Or.inl hc⟩
  | some cart =>
    rw [updateProductInCart_of_cart user productId quantity s cart hcart]
    cases Product.findOne productId s with
    | none => exact ⟨rfl, rfl, fun c hc => Or.inl hc⟩
    | some product =>
      cases hloop : updateProductInCart.loop productId quantity cart.cartItems with
      | none => exact ⟨rfl, rfl, fun c hc => Or.inl hc⟩
      | some cartItems1 =>
        obtain ⟨pre, item, post, hsplit, -, -, h1⟩ :=
          updateProductInCart.loop_eq_some productId quantity cart.cartItems cartItems1 hloop
        refine ⟨rfl, rfl, fun c hc => ?_⟩
        rcases Cart.mem_replace hc with h | h
        · exact Or.inl h
        · refine Or.inr ⟨cart, Cart.mem_of_findOne hcart, pre, item, post, hsplit, ?_⟩
          rw [h, h1]

/-- After `deleteProductFromCart` the products are those before and every cart is a
former cart or a former cart with the items of one `_id` removed. -/
theorem deleteProductFromCart_store (user : User) (productId : String) (s : Store) :
    (deleteProductFromCart user productId s).store.products = s.products ∧
    (deleteProductFromCart user productId s).store.nextId = s.nextId ∧
    ∀ c ∈ (deleteProductFromCart user productId s).store.carts,
      c ∈ s.carts ∨ ∃ d ∈ s.carts, ∃ id,
        c = { d with cartItems := d.cartItems.filter (fun item => decide (item._id ≠ id)) } := by
  cases hcart : Cart.findOne user.email s with
  | none =>
    have hval : deleteProductFromCart user productId s
        = ⟨.error ⟨400, "User does not have cart"⟩, s⟩ := by
      unfold deleteProductFromCart
      rw [hcart]
      rfl
    rw [hval]
    exact ⟨rfl, rfl, fun c hc => Or.inl hc⟩
  | some cart =>
    rw [deleteProductFromCart_of_cart user productId s cart hcart]
    cases cart.cartItems.filter (fun item => decide (item.product._id = productId)) with
    | nil => exact ⟨rfl, rfl, fun c hc => Or.inl hc⟩
    | cons first rest =>
      refine ⟨rfl, rfl, fun c hc => ?_⟩
      rcases Cart.mem_pull hc with h | ⟨d, hd, h⟩
      · exact Or.inl h
      · exact Or.inr ⟨d, hd, first._id, h⟩

theorem addProductToCart.getCart_store (config : Config) (accepted : Bool) (user : User)
    (s s1 : Store) (cart : Cart)
    (hget : addProductToCart.getCart config accepted user s = .ok (some cart, s1)) :
    s1.products = s.products ∧ s1.nextId = s.nextId ∧
    Cart.findOne user.email s1 = some cart ∧
    ((s1 = s ∧ Cart.findOne user.email s = some cart) ∨
      (Cart.findOne user.email s = none ∧ accepted = true ∧
        cart = addProductToCart.newCart config user ∧
        s1 = { s with carts := s.carts ++ [addProductToCart.newCart config user] })) := by
  cases hcart : Cart.findOne user.email s with
  | some c =>
    rw [addProductToCart.getCart_of_cart config accepted user s c hcart] at hget
    cases hget
    exact ⟨rfl, rfl, hcart, Or.inl ⟨rfl, rfl⟩⟩
  | none =>
    cases accepted with
    | false =>
      rw [addProductToCart.getCart_rejected config user s hcart] at hget
      cases hget
    | true =>
      rw [addProductToCart.getCart_created config user s hcart] at hget
      cases hget
      exact ⟨rfl, rfl, Cart.findOne_append_of_none _ hcart rfl, Or.inr ⟨rfl, rfl, rfl, rfl⟩⟩

/-- After `addProductToCart` the products are those before and every cart is a former
cart, or has no items, or is a former or empty cart followed by one item: a product of the
collection, of id `productId`, with the given quantity. -/
theorem addProductToCart_store (config : Config) (accepted : Bool) (user : User)
    (productId : String) (quantity : JSNumber) (s : Store) :
    (addProductToCart config accepted user productId quantity s).store.products = s.products ∧
    ∀ c ∈ (addProductToCart config accepted user productId quantity s).store.carts,
      c ∈ s.carts ∨ c.cartItems = [] ∨
      ∃ d product id, (d ∈ s.carts ∨ d.cartItems = []) ∧ product ∈ s.products ∧
        product._id = productId ∧ (∀ item ∈ d.cartItems, item.product._id ≠ productId) ∧
        c = { d with cartItems := d.cartItems ++ [⟨id, product, quantity⟩] } := by
  rcases addProductToCart.getCart_cases config accepted user s with
    ⟨-, -, hget⟩ | ⟨cart, s1, hget, -, -⟩
  · have hval : addProductToCart config accepted user productId quantity s
        = ⟨.error ⟨500, "500 Internal server error"⟩, s⟩ := by
      unfold addProductToCart
      rw [hget]
    rw [hval]
    exact ⟨rfl, fun c hc => Or.inl hc⟩
  · obtain ⟨hprods, -, hfind, hs1⟩ :=
      addProductToCart.getCart_store config accepted user s s1 cart hget
    have hcarts1 : ∀ c ∈ s1.carts, c ∈ s.carts ∨ c.cartItems = [] := by
      intro c hc
      rcases hs1 with ⟨h, -⟩ | ⟨-, -, -, h⟩
      · rw [h] at hc
        exact Or.inl hc
      · rw [h] at hc
        rcases List.mem_append.mp hc with hc | hc
        · exact Or.inl hc
        · rw [List.mem_singleton.mp hc]
          exact Or.inr rfl
    rw [addProductToCart_of_getCart config accepted user productId quantity s s1 cart hget]
    by_cases hdup : ∃ item ∈ cart.cartItems, item.product._id = productId
    · rw [if_pos hdup]
      exact ⟨hprods, fun c hc => (hcarts1 c hc).elim Or.inl (fun h => Or.inr (Or.inl h))⟩
    · rw [if_neg hdup]
      cases hprod : Product.findOne productId s1 with
      | none =>
        exact ⟨hprods, fun c hc => (hcarts1 c hc).elim Or.inl (fun h => Or.inr (Or.inl h))⟩
      | some product =>
        refine ⟨hprods, fun c hc => ?_⟩
        rcases Cart.mem_replace hc with h | h
        · exact (hcarts1 c h).elim Or.inl (fun h => Or.inr (Or.inl h))
        · refine Or.inr (Or.inr ⟨cart, product, s1.nextId,
            hcarts1 cart (Cart.mem_of_findOne hfind), ?_, Product.findOne_id hprod, ?_, h⟩)
          · rw [← hprods]
            exact List.mem_of_find?_eq_some hprod
          · intro item hmem hid
            exact hdup ⟨item, hmem, hid⟩

/-- No call changes the Product collection. -/
theorem Call.store_products (c : Call) (user : User) (s : Store) :
    (c.store user s).products = s.products := by
  cases c with
  | getCartByUser => exact congrArg Store.products (getCartByUser_store user s)
  | addProductToCart config accepted productId quantity =>
    exact (addProductToCart_store config accepted user productId quantity s).1
  | updateProductInCart productId quantity =>
    exact (updateProductInCart_store user productId quantity s).1
  | deleteProductFromCart productId => exact (deleteProductFromCart_store user productId s).1
  | checkout => exact (checkout_store user s).1

/-! ## Invariant: at most one item per product id -/

theorem Cart.UniqueProducts.of_nil {c : Cart} (h : c.cartItems = []) : c.UniqueProducts := by
  unfold Cart.UniqueProducts
  rw [h]
  exact List.nodup_nil

/-- Every call keeps the carts with at most one item per product id. -/
theorem Call.store_uniqueProducts (c : Call) (user : User) (s : Store)
    (h : s.UniqueProducts) : (c.store user s).UniqueProducts := by
  intro cart hcart
  cases c with
  | getCartByUser =>
    have hs : (Call.getCartByUser.store user s) = s := getCartByUser_store user s
    rw [hs] at hcart
    exact h cart hcart
  | addProductToCart config accepted productId quantity =>
    rcases (addProductToCart_store config accepted user productId quantity s).2 cart hcart with
      hc | hc | ⟨d, product, id, hd, -, hid, hnew, hc⟩
    · exact h cart hc
    · exact Cart.UniqueProducts.of_nil hc
    · have hdu : d.UniqueProducts := hd.elim (h d) Cart.UniqueProducts.of_nil
      unfold Cart.UniqueProducts at hdu ⊢
      rw [hc]
      simp only [List.map_append, List.map_cons, List.map_nil]
      rw [List.nodup_append]
      refine ⟨hdu, List.nodup_singleton _, ?_⟩
      intro x hx1 hx2
      rw [List.mem_singleton] at hx2
      obtain ⟨item, hitem, hx⟩ := List.mem_map.mp hx1
      exact hnew item hitem (by rw [hx, hx2, hid])
  | updateProductInCart productId quantity =>
    rcases (updateProductInCart_store user productId quantity s).2.2 cart hcart with
      hc | ⟨d, hd, pre, item, post, hsplit, hc⟩
    · exact h cart hc
    · have hdu := h d hd
      unfold Cart.UniqueProducts at hdu ⊢
      rw [hsplit] at hdu
      rw [hc]
      simpa using hdu
  | deleteProductFromCart productId =>
    rcases (deleteProductFromCart_store user productId s).2.2 cart hcart with
      hc | ⟨d, hd, id, hc⟩
    · exact h cart hc
    · have hdu := h d hd
      unfold Cart.UniqueProducts at hdu ⊢
      rw [hc]
      exact hdu.sublist (List.Sublist.map _ (List.filter_sublist _))
  | checkout =>
    rcases (checkout_store user s).2.2 cart hcart with hc | hc
    · exact h cart hc
    · exact Cart.UniqueProducts.of_nil hc

theorem Store.Reachable.uniqueProducts {s0 s : Store} (hreach : Store.Reachable s0 s)
    (h0 : s0.UniqueProducts) : s.UniqueProducts := by
  induction hreach with
  | init => exact h0
  | step c user _ ih => exact Call.store_uniqueProducts c user _ ih

/-- C14 (cart uniqueness invariant): if every cart of the store has at most one item per
product id, then so has every cart of the store after a call of `addProductToCart`,
`updateProductInCart`, `deleteProductFromCart` or `checkout`, whether the call returns or
throws, and after any sequence of calls; in particular in every store reached from one
without carts. (That `Product.findOne` yields a product of the requested id holds of the
store by `Product.findOne_id`.) -/
theorem uniqueProducts_invariant (s : Store) (h : s.UniqueProducts) :
    (∀ config accepted user productId quantity,
      (addProductToCart config accepted user productId quantity s).store.UniqueProducts) ∧
    (∀ user productId quantity,
      (updateProductInCart user productId quantity s).store.UniqueProducts) ∧
    (∀ user productId, (deleteProductFromCart user productId s).store.UniqueProducts) ∧
    (∀ user, (checkout user s).store.UniqueProducts) ∧
    (∀ s1, Store.Reachable s s1 → s1.UniqueProducts) ∧
    (∀ s0 s1, s0.carts = [] → Store.Reachable s0 s1 → s1.UniqueProducts) := by
  refine ⟨?_, ?_, ?_, ?_, ?_, ?_⟩
  · intro config accepted user productId quantity
    exact Call.store_uniqueProducts (.addProductToCart config accepted productId quantity) user s h
  · intro user productId quantity
    exact Call.store_uniqueProducts (.updateProductInCart productId quantity) user s h
  · intro user productId
    exact Call.store_uniqueProducts (.deleteProductFromCart productId) user s h
  · intro user
    exact Call.store_uniqueProducts .checkout user s h
  · intro s1 hreach
    exact hreach.uniqueProducts h
  · intro s0 s1 h0 hreach
    refine hreach.uniqueProducts ?_
    intro cart hcart
    rw [h0] at hcart
    cases hcart

/-- The carts of the example store have one line per product; so have they after `p2` is
added to the cart of `p1`. -/
theorem uniqueProducts_invariant_witness :
    exampleStore3.UniqueProducts ∧
    (addProductToCart exampleConfig true exampleUser400 "p2" 1
      exampleStore3).store.UniqueProducts :=
  ⟨by decide,
    (uniqueProducts_invariant exampleStore3 (by decide)).1 exampleConfig true exampleUser400
      "p2" 1⟩

/-! ## checkout reads the embedded products only -/

/-- C16 (checkout uses the embedded snapshot): for two stores with the same Carts
collection, whatever their Product collections, `checkout` of the same user has the same
result (the same error, or the same emptied cart), leaves the same user entity (the same
`walletMoney`) and the same Carts collection. -/
theorem checkout_uses_snapshot (user : User) (s1 s2 : Store) (hcarts : s1.carts = s2.carts) :
    (checkout user s1).result = (checkout user s2).result ∧
    (checkout user s1).user = (checkout user s2).user ∧
    (checkout user s1).store.carts = (checkout user s2).store.carts := by
  have hfind : Cart.findOne user.email s1 = Cart.findOne user.email s2 := by
    unfold Cart.findOne
    rw [hcarts]
  cases hcart : Cart.findOne user.email s2 with
  | none =>
    have h1 : checkout user s1 = ⟨.error ⟨404, "User cart not found"⟩, user, s1⟩ := by
      unfold checkout
      rw [hfind, hcart]
      rfl
    have h2 : checkout user s2 = ⟨.error ⟨404, "User cart not found"⟩, user, s2⟩ := by
      unfold checkout
      rw [hcart]
      rfl
    rw [h1, h2]
    exact ⟨rfl, rfl, hcarts⟩
  | some userCart =>
    rw [checkout_of_cart user s1 userCart (hfind.trans hcart),
      checkout_of_cart user s2 userCart hcart]
    split_ifs
    · exact ⟨rfl, rfl, hcarts⟩
    · exact ⟨rfl, rfl, hcarts⟩
    · exact ⟨rfl, rfl, hcarts⟩
    · refine ⟨rfl, rfl, ?_⟩
      show Cart.replace _ s1.carts = Cart.replace _ s2.carts
      rw [hcarts]

/-- The same cart checked out against the full Product collection and against one from
which `p1` was removed: the same outcome. -/
theorem checkout_uses_snapshot_witness :
    (checkout exampleUser exampleStore).result = (checkout exampleUser exampleStoreStale).result ∧
    (checkout exampleUser exampleStore).user = (checkout exampleUser exampleStoreStale).user ∧
    (checkout exampleUser exampleStore).store.carts
      = (checkout exampleUser exampleStoreStale).store.carts :=
  checkout_uses_snapshot exampleUser exampleStore exampleStoreStale (by decide)

/-! ## Frame: the documents of other emails -/

/-- Looking up one key among the documents of all keys but another one. -/
theorem find?_filter_key_ne {α : Type} (key : α → String) {owner email : String}
    (hne : email ≠ owner) :
    ∀ l : List α,
      (l.filter (fun d => decide (key d ≠ owner))).find? (fun d => decide (key d = email))
        = l.find? (fun d => decide (key d = email))
  | [] => rfl
  | d :: ds => by
    have ih := find?_filter_key_ne key hne ds
    have hoe : ¬ owner = email := fun h => hne h.symm
    have heo : ¬ email = owner := hne
    by_cases hd : key d = owner
    · have hde : ¬ key d = email := fun h => hne (h.symm.trans hd)
      simpa [List.filter_cons, List.find?_cons, hd, hde, hoe] using ih
    · by_cases hde : key d = email
      · simp [List.filter_cons, List.find?_cons, hd, hde, heo]
      · simpa [List.filter_cons, List.find?_cons, hd, hde] using ih

theorem Cart.filter_replace (c1 : Cart) :
    ∀ carts : List Cart,
      (Cart.replace c1 carts).filter (fun d => decide (d.email ≠ c1.email))
        = carts.filter (fun d => decide (d.email ≠ c1.email))
  | [] => rfl
  | d :: ds => by
    have ih := Cart.filter_replace c1 ds
    by_cases hd : d.email = c1.email
    · simp [Cart.replace, hd, List.filter_cons]
    · simpa [Cart.replace, hd, List.filter_cons] using ih

theorem Cart.filter_pull (email : String) (id : Nat) :
    ∀ carts : List Cart,
      (Cart.pull email id carts).filter (fun d => decide (d.email ≠ email))
        = carts.filter (fun d => decide (d.email ≠ email))
  | [] => rfl
  | d :: ds => by
    have ih := Cart.filter_pull email id ds
    by_cases hd : d.email = email
    · simp [Cart.pull, hd, List.filter_cons]
    · simpa [Cart.pull, hd, List.filter_cons] using ih

theorem User.filter_users_save (u1 : User) :
    ∀ users : List User,
      (User.save u1 users).filter (fun u => decide (u.email ≠ u1.email))
        = users.filter (fun u => decide (u.email ≠ u1.email))
  | [] => rfl
  | u :: us => by
    have ih := User.filter_users_save u1 us
    by_cases hu : u.email = u1.email
    · simp [User.save, hu, List.filter_cons]
    · simpa [User.save, hu, List.filter_cons] using ih

/-- Saving a cart of the user's email leaves the carts of the other emails as they were. -/
theorem Cart.filter_save (c1 : Cart) (email : String) (s : Store) (h1 : c1.email = email) :
    (Cart.save c1 s).carts.filter (fun d => decide (d.email ≠ email))
      = s.carts.filter (fun d => decide (d.email ≠ email)) := by
  subst h1
  exact Cart.filter_replace c1 s.carts

theorem checkout_user_email (user : User) (s : Store) :
    (checkout user s).user.email = user.email := by
  cases hcart : Cart.findOne user.email s with
  | none =>
    unfold checkout
    rw [hcart]
  | some userCart =>
    rw [checkout_of_cart user s userCart hcart]
    split_ifs <;> rfl

theorem Call.saved_email (c : Call) (user : User) (s : Store) (u1 : User)
    (h : c.saved user s = some u1) : u1.email = user.email := by
  cases c with
  | checkout =>
    unfold Call.saved at h
    cases hres : (QKart.checkout user s).result with
    | error e => simp [hres] at h
    | ok cart =>
      simp [hres] at h
      rw [← h]
      exact checkout_user_email user s
  | getCartByUser => simp [Call.saved] at h
  | addProductToCart config accepted productId quantity => simp [Call.saved] at h
  | updateProductInCart productId quantity => simp [Call.saved] at h
  | deleteProductFromCart productId => simp [Call.saved] at h

theorem checkout_carts_filter (user : User) (s : Store) :
    (checkout user s).store.carts.filter (fun d => decide (d.email ≠ user.email))
      = s.carts.filter (fun d => decide (d.email ≠ user.email)) := by
  cases hcart : Cart.findOne user.email s with
  | none =>
    unfold checkout
    rw [hcart]
  | some userCart =>
    rw [checkout_of_cart user s userCart hcart]
    split_ifs
    · rfl
    · rfl
    · rfl
    · exact Cart.filter_save _ user.email s
        (show userCart.email = user.email from Cart.findOne_email hcart)

theorem updateProductInCart_carts_filter (user : User) (productId : String) (quantity : JSNumber)
    (s : Store) :
    (updateProductInCart user productId quantity s).store.carts.filter
        (fun d => decide (d.email ≠ user.email))
      = s.carts.filter (fun d => decide (d.email ≠ user.email)) := by
  cases hcart : Cart.findOne user.email s with
  | none =>
    unfold updateProductInCart
    rw [hcart]
  | some cart =>
    rw [updateProductInCart_of_cart user productId quantity s cart hcart]
    cases Product.findOne productId s with
    | none => rfl
    | some product =>
      cases updateProductInCart.loop productId quantity cart.cartItems with
      | none => rfl
      | some cartItems1 =>
        exact Cart.filter_save _ user.email s
          (show cart.email = user.email from Cart.findOne_email hcart)

theorem deleteProductFromCart_carts_filter (user : User) (productId : String) (s : Store) :
    (deleteProductFromCart user productId s).store.carts.filter
        (fun d => decide (d.email ≠ user.email))
      = s.carts.filter (fun d => decide (d.email ≠ user.email)) := by
  cases hcart : Cart.findOne user.email s with
  | none =>
    unfold deleteProductFromCart
    rw [hcart]
  | some cart =>
    rw [deleteProductFromCart_of_cart user productId s cart hcart]
    cases cart.cartItems.filter (fun item => decide (item.product._id = productId)) with
    | nil => rfl
    | cons first rest => exact Cart.filter_pull user.email first._id s.carts

theorem addProductToCart_carts_filter (config : Config) (accepted : Bool) (user : User)
    (productId : String) (quantity : JSNumber) (s : Store) :
    (addProductToCart config accepted user productId quantity s).store.carts.filter
        (fun d => decide (d.email ≠ user.email))
      = s.carts.filter (fun d => decide (d.email ≠ user.email)) := by
  rcases addProductToCart.getCart_cases config accepted user s with
    ⟨-, -, hget⟩ | ⟨cart, s1, hget, -, -⟩
  · unfold addProductToCart
    rw [hget]
  · obtain ⟨-, -, hfind, hs1⟩ :=
      addProductToCart.getCart_store config accepted user s s1 cart hget
    have hf1 : s1.carts.filter (fun d => decide (d.email ≠ user.email))
        = s.carts.filter (fun d => decide (d.email ≠ user.email)) := by
      rcases hs1 with ⟨h, -⟩ | ⟨-, -, -, h⟩
      · rw [h]
      · rw [h]
        simp [List.filter_append, addProductToCart.newCart]
    rw [addProductToCart_of_getCart config accepted user productId quantity s s1 cart hget]
    by_cases hdup : ∃ item ∈ cart.cartItems, item.product._id = productId
    · rw [if_pos hdup]
      exact hf1
    · rw [if_neg hdup]
      cases Product.findOne productId s1 with
      | none => exact hf1
      | some product =>
        exact (Cart.filter_save
          { cart with cartItems := cart.cartItems ++ [⟨s1.nextId, product, quantity⟩] }
          user.email { s1 with nextId := s1.nextId + 1 }
          (show cart.email = user.email from Cart.findOne_email hfind)).trans hf1

/-- No call touches the carts of the emails other than the one of its user. -/
theorem Call.store_carts_filter (c : Call) (user : User) (s : Store) :
    (c.store user s).carts.filter (fun d => decide (d.email ≠ user.email))
      = s.carts.filter (fun d => decide (d.email ≠ user.email)) := by
  cases c with
  | getCartByUser =>
    exact congrArg (fun x : Store => x.carts.filter (fun d => decide (d.email ≠ user.email)))
      (getCartByUser_store user s)
  | addProductToCart config accepted productId quantity =>
    exact addProductToCart_carts_filter config accepted user productId quantity s
  | updateProductInCart productId quantity =>
    exact updateProductInCart_carts_filter user productId quantity s
  | deleteProductFromCart productId => exact deleteProductFromCart_carts_filter user productId s
  | checkout => exact checkout_carts_filter user s

theorem Cart.findOne_of_filter_eq {s1 s : Store} {owner email : String} (hne : email ≠ owner)
    (h : s1.carts.filter (fun d => decide (d.email ≠ owner))
      = s.carts.filter (fun d => decide (d.email ≠ owner))) :
    Cart.findOne email s1 = Cart.findOne email s := by
  unfold Cart.findOne
  rw [← find?_filter_key_ne Cart.email hne s1.carts, ← find?_filter_key_ne Cart.email hne s.carts,
    h]

/-! ## Requests in a world -/

theorem World.exec_of_none (c : Call) (email : String) (w : World)
    (h : w.users.find? (fun u => decide (u.email = email)) = none) : w.exec c email = w := by
  unfold World.exec
  rw [h]

theorem World.exec_of_user (c : Call) (email : String) (w : World) (user : User)
    (h : w.users.find? (fun u => decide (u.email = email)) = some user) :
    w.exec c email =
      ⟨c.store user w.store,
        match c.saved user w.store with
        | some user1 => User.save user1 w.users
        | none => w.users⟩ := by
  unfold World.exec
  rw [h]

theorem User.find?_email {email : String} {users : List User} {user : User}
    (h : users.find? (fun u => decide (u.email = email)) = some user) : user.email = email := by
  have := List.find?_some h
  simpa using this

/-- A request of one email leaves the users of the other emails as they were. -/
theorem World.exec_users_filter (c : Call) (email : String) (w : World) :
    (w.exec c email).users.filter (fun u => decide (u.email ≠ email))
      = w.users.filter (fun u => decide (u.email ≠ email)) := by
  cases huser : w.users.find? (fun u => decide (u.email = email)) with
  | none => rw [World.exec_of_none c email w huser]
  | some user =>
    rw [World.exec_of_user c email w user huser]
    cases hsaved : c.saved user w.store with
    | none => rfl
    | some user1 =>
      have h1 : user1.email = email :=
        (Call.saved_email c user w.store user1 hsaved).trans (User.find?_email huser)
      subst h1
      exact User.filter_users_save user1 w.users

/-- A request of one email leaves the products and the carts of the other emails as they
were. -/
theorem World.exec_store (c : Call) (email : String) (w : World) :
    (w.exec c email).store.products = w.store.products ∧
    (w.exec c email).store.carts.filter (fun d => decide (d.email ≠ email))
      = w.store.carts.filter (fun d => decide (d.email ≠ email)) := by
  cases huser : w.users.find? (fun u => decide (u.email = email)) with
  | none =>
    rw [World.exec_of_none c email w huser]
    exact ⟨rfl, rfl⟩
  | some user =>
    rw [World.exec_of_user c email w user huser]
    have he : user.email = email := User.find?_email huser
    subst he
    exact ⟨Call.store_products c user w.store, Call.store_carts_filter c user w.store⟩

/-- C17 (frame across users and products): a call of any of the five functions for a user,
returning or throwing, leaves the Product collection as it was and the carts of every
other email as they were, and the only user entity it saves has the email of its user; so
a request of one email leaves the stored users of the other emails, their `walletMoney`
and their carts as they were. -/
theorem frame_across_users (c : Call) (user : User) (s : Store) (w : World) (email : String) :
    (c.store user s).products = s.products ∧
    (c.store user s).carts.filter (fun d => decide (d.email ≠ user.email))
      = s.carts.filter (fun d => decide (d.email ≠ user.email)) ∧
    (∀ other, other ≠ user.email → Cart.findOne other (c.store user s) = Cart.findOne other s) ∧
    (∀ user1, c.saved user s = some user1 → user1.email = user.email) ∧
    (w.exec c email).store.products = w.store.products ∧
    (w.exec c email).users.filter (fun u => decide (u.email ≠ email))
      = w.users.filter (fun u => decide (u.email ≠ email)) ∧
    (∀ other, other ≠ email →
      (w.exec c email).wallet other = w.wallet other ∧
      Cart.findOne other (w.exec c email).store = Cart.findOne other w.store) := by
  refine ⟨Call.store_products c user s, Call.store_carts_filter c user s, ?_,
    Call.saved_email c user s, (World.exec_store c email w).1,
    World.exec_users_filter c email w, ?_⟩
  · intro other hne
    exact Cart.findOne_of_filter_eq hne (Call.store_carts_filter c user s)
  · intro other hne
    constructor
    · unfold World.wallet
      rw [← find?_filter_key_ne User.email hne (w.exec c email).users,
        ← find?_filter_key_ne User.email hne w.users, World.exec_users_filter c email w]
    · exact Cart.findOne_of_filter_eq hne (World.exec_store c email w).2

/-- The owner of the first cart checks out: the cart and the wallet of the owner of the
second cart are as before. -/
theorem frame_across_users_witness :
    (exampleWorld.exec .checkout "a@x.io").wallet "b@x.io" = exampleWorld.wallet "b@x.io" ∧
    Cart.findOne "b@x.io" (exampleWorld.exec .checkout "a@x.io").store
      = Cart.findOne "b@x.io" exampleWorld.store :=
  (frame_across_users .checkout exampleUser exampleStore3 exampleWorld "a@x.io").2.2.2.2.2.2
    "b@x.io" (by decide)

/-! ## The message for an unknown product, and the cart left behind -/

/-- C18 (addProductToCart error message for an unknown product): for the owner of a cart
and a product id that is neither in the cart nor in the Product collection, the code
throws 400 with the message "Product doesn't exist in db", which is not the message
"Product doesn't exist in database" of the docstring. -/
theorem unknown_product_message_mismatch :
    (∀ p ∈ exampleStore3.products, p._id ≠ "p9") ∧
    (∀ item ∈ exampleCart500.cartItems, item.product._id ≠ "p9") ∧
    Cart.findOne exampleUser400.email exampleStore3 = some exampleCart500 ∧
    (addProductToCart exampleConfig true exampleUser400 "p9" 1 exampleStore3).result
      = .error ⟨400, "Product doesn't exist in db"⟩ ∧
    (addProductToCart exampleConfig true exampleUser400 "p9" 1 exampleStore3).result
      ≠ .error ⟨400, "Product doesn't exist in database"⟩ := by
  refine ⟨by decide, by decide, by decide, rfl, ?_⟩
  intro h
  have hval : (addProductToCart exampleConfig true exampleUser400 "p9" 1 exampleStore3).result
      = .error ⟨400, "Product doesn't exist in db"⟩ := rfl
  rw [hval] at h
  injection h with h1
  exact absurd h1 (by decide)

/-- C19, as the claim states it, fails: for a user without a cart and a product id absent
from the Product collection, when the store rejects the creation of the cart the call
throws 500, not 400, and no cart of the user's email is in the store afterwards. -/
theorem addProductToCart_leaves_cart_counterexample :
    Cart.findOne exampleUserNoCart.email exampleStore3 = none ∧
    (∀ p ∈ exampleStore3.products, p._id ≠ "p9") ∧
    (addProductToCart exampleConfig false exampleUserNoCart "p9" 1 exampleStore3).result
      = .error ⟨500, "500 Internal server error"⟩ ∧
    Cart.findOne exampleUserNoCart.email
      (addProductToCart exampleConfig false exampleUserNoCart "p9" 1 exampleStore3).store
      = none ∧
    (getCartByUser exampleUserNoCart
      (addProductToCart exampleConfig false exampleUserNoCart "p9" 1 exampleStore3).store).result
      = .error ⟨404, "User does not have a cart"⟩ := by
  refine ⟨by decide, by decide, rfl, by decide, rfl⟩

/-- C19 (addProductToCart leaves a created cart behind when it fails), amended: for a
user without a cart and a product id absent from the Product collection, when the store
accepts the creation of the cart the call throws 400, yet the store afterwards holds a
cart of the user's email with no items and the default payment option; `getCartByUser`
then returns that cart and `checkout` then throws 400 "user cart is empty", not 404. -/
theorem addProductToCart_leaves_cart (config : Config) (user : User) (productId : String)
    (quantity : JSNumber) (s : Store)
    (hnone : Cart.findOne user.email s = none)
    (habsent : ∀ p ∈ s.products, p._id ≠ productId) :
    (addProductToCart config true user productId quantity s).result
      = .error ⟨400, "Product doesn't exist in db"⟩ ∧
    (addProductToCart config true user productId quantity s).store.carts
      = s.carts ++ [⟨user.email, [], config.default_payment_option⟩] ∧
    Cart.findOne user.email (addProductToCart config true user productId quantity s).store
      = some ⟨user.email, [], config.default_payment_option⟩ ∧
    (getCartByUser user (addProductToCart config true user productId quantity s).store).result
      = .ok ⟨user.email, [], config.default_payment_option⟩ ∧
    (checkout user (addProductToCart config true user productId quantity s).store).result
      = .error ⟨400, "user cart is empty"⟩ := by
  have hprod1 : Product.findOne productId
      { s with carts := s.carts ++ [addProductToCart.newCart config user] } = none :=
    (Product.findOne_eq_none_iff productId s).mpr habsent
  have hval : addProductToCart config true user productId quantity s
      = ⟨.error ⟨400, "Product doesn't exist in db"⟩,
        { s with carts := s.carts ++ [⟨user.email, [], config.default_payment_option⟩] }⟩ := by
    rw [addProductToCart_of_getCart config true user productId quantity s _ _
      (addProductToCart.getCart_created config user s hnone),
      if_neg (by simp [addProductToCart.newCart]), hprod1]
    rfl
  have hfind : Cart.findOne user.email
      { s with carts := s.carts ++ [⟨user.email, [], config.default_payment_option⟩] }
      = some ⟨user.email, [], config.default_payment_option⟩ :=
    Cart.findOne_append_of_none _ hnone rfl
  rw [hval]
  refine ⟨rfl, rfl, hfind, ?_, ?_⟩
  · unfold getCartByUser
    rw [hfind]
  · rw [checkout_of_cart user _ _ hfind, if_pos rfl]

/-- A user without a cart asks for the unknown product `p9`: the call fails, and the
user's empty cart is in the store afterwards. -/
theorem addProductToCart_leaves_cart_witness :
    (addProductToCart exampleConfig true exampleUserNoCart "p9" 1 exampleStore3).result
      = .error ⟨400, "Product doesn't exist in db"⟩ ∧
    (addProductToCart exampleConfig true exampleUserNoCart "p9" 1 exampleStore3).store.carts
      = [exampleCart, exampleCart500, exampleCartEmpty] ++
        [⟨"d@x.io", [], "PAYMENT_OPTION_DEFAULT"⟩] ∧
    Cart.findOne "d@x.io"
        (addProductToCart exampleConfig true exampleUserNoCart "p9" 1 exampleStore3).store
      = some ⟨"d@x.io", [], "PAYMENT_OPTION_DEFAULT"⟩ ∧
    (getCartByUser exampleUserNoCart
        (addProductToCart exampleConfig true exampleUserNoCart "p9" 1 exampleStore3).store).result
      = .ok ⟨"d@x.io", [], "PAYMENT_OPTION_DEFAULT"⟩ ∧
    (checkout exampleUserNoCart
        (addProductToCart exampleConfig true exampleUserNoCart "p9" 1 exampleStore3).store).result
      = .error ⟨400, "user cart is empty"⟩ :=
  addProductToCart_leaves_cart exampleConfig exampleUserNoCart "p9" 1 exampleStore3
    (by decide) (by decide)

/-! ## Add, then delete -/

theorem Cart.replace_self (email : String) :
    ∀ (carts : List Cart) (c : Cart),
      carts.find? (fun d => decide (d.email = email)) = some c → Cart.replace c carts = carts
  | [], c, h => by simp at h
  | d :: ds, c, h => by
    by_cases hd : d.email = email
    · have hc : d = c := by simpa [List.find?_cons, hd] using h
      subst hc
      simp [Cart.replace]
    · have hrest : ds.find? (fun d => decide (d.email = email)) = some c := by
        simpa [List.find?_cons, hd] using h
      have hce : c.email = email := by
        have := List.find?_some hrest
        simpa using this
      have hdc : ¬ d.email = c.email := by rw [hce]; exact hd
      simp [Cart.replace, hdc, Cart.replace_self email ds c hrest]

theorem Cart.pull_replace (c1 : Cart) (id : Nat) :
    ∀ carts : List Cart,
      Cart.pull c1.email id (Cart.replace c1 carts)
        = Cart.replace
            { c1 with cartItems := c1.cartItems.filter (fun item => decide (item._id ≠ id)) }
            carts
  | [] => rfl
  | d :: ds => by
    by_cases hd : d.email = c1.email
    · simp [Cart.replace, Cart.pull, hd]
    · simp [Cart.replace, Cart.pull, hd, Cart.pull_replace c1 id ds]

/-- `addProductToCart` keeps the item ids below the id supply. -/
theorem addProductToCart_freshIds (config : Config) (accepted : Bool) (user : User)
    (productId : String) (quantity : JSNumber) (s : Store) (h : s.FreshIds) :
    (addProductToCart config accepted user productId quantity s).store.FreshIds := by
  rcases addProductToCart.getCart_cases config accepted user s with
    ⟨-, -, hget⟩ | ⟨cart, s1, hget, -, -⟩
  · have hval : addProductToCart config accepted user productId quantity s
        = ⟨.error ⟨500, "500 Internal server error"⟩, s⟩ := by
      unfold addProductToCart
      rw [hget]
    rw [hval]
    exact h
  · obtain ⟨-, hnext, hfind, hs1⟩ :=
      addProductToCart.getCart_store config accepted user s s1 cart hget
    have h1 : s1.FreshIds := by
      intro c hc item hitem
      rw [hnext]
      rcases hs1 with ⟨hs, -⟩ | ⟨-, -, -, hs⟩
      · rw [hs] at hc
        exact h c hc item hitem
      · rw [hs] at hc
        rcases List.mem_append.mp hc with hc | hc
        · exact h c hc item hitem
        · rw [List.mem_singleton.mp hc] at hitem
          cases hitem
    rw [addProductToCart_of_getCart config accepted user productId quantity s s1 cart hget]
    by_cases hdup : ∃ item ∈ cart.cartItems, item.product._id = productId
    · rw [if_pos hdup]
      exact h1
    · rw [if_neg hdup]
      cases Product.findOne productId s1 with
      | none => exact h1
      | some product =>
        intro c hc item hitem
        show item._id < s1.nextId + 1
        rcases Cart.mem_replace hc with hc | hc
        · exact Nat.lt_succ_of_lt (h1 c hc item hitem)
        · rw [hc] at hitem
          rcases List.mem_append.mp hitem with hi | hi
          · exact Nat.lt_succ_of_lt (h1 cart (Cart.mem_of_findOne hfind) item hi)
          · rw [List.mem_singleton.mp hi]
            exact Nat.lt_succ_self _

/-- Every call keeps the item ids below the id supply. -/
theorem Call.store_freshIds (c : Call) (user : User) (s : Store) (h : s.FreshIds) :
    (c.store user s).FreshIds := by
  cases c with
  | getCartByUser =>
    have hs : (Call.getCartByUser.store user s) = s := getCartByUser_store user s
    rw [hs]
    exact h
  | addProductToCart config accepted productId quantity =>
    exact addProductToCart_freshIds config accepted user productId quantity s h
  | updateProductInCart productId quantity =>
    intro cart hcart item hitem
    obtain ⟨-, hnext, hc⟩ := QKart.updateProductInCart_store user productId quantity s
    show item._id < (QKart.updateProductInCart user productId quantity s).store.nextId
    rw [hnext]
    rcases hc cart hcart with hc | ⟨d, hd, pre, it, post, hsplit, hc⟩
    · exact h cart hc item hitem
    · have hdn := h d hd
      rw [hsplit] at hdn
      rw [hc] at hitem
      rcases List.mem_append.mp hitem with hi | hi
      · exact hdn item (List.mem_append_left _ hi)
      · rcases List.mem_cons.mp hi with hi | hi
        · rw [hi]
          exact hdn it (List.mem_append_right _ (List.mem_cons_self _ _))
        · exact hdn item (List.mem_append_right _ (List.mem_cons_of_mem _ hi))
  | deleteProductFromCart productId =>
    intro cart hcart item hitem
    obtain ⟨-, hnext, hc⟩ := QKart.deleteProductFromCart_store user productId s
    show item._id < (QKart.deleteProductFromCart user productId s).store.nextId
    rw [hnext]
    rcases hc cart hcart with hc | ⟨d, hd, id, hc⟩
    · exact h cart hc item hitem
    · rw [hc] at hitem
      exact h d hd item (List.mem_of_mem_filter hitem)
  | checkout =>
    intro cart hcart item hitem
    obtain ⟨-, hnext, hc⟩ := checkout_store user s
    show item._id < (QKart.checkout user s).store.nextId
    rw [hnext]
    rcases hc cart hcart with hc | hc
    · exact h cart hc item hitem
    · rw [hc] at hitem
      cases hitem

/-- In every store reached from one without carts, the id that the store assigns next is
not the id of an item of a cart. -/
theorem Store.Reachable.fresh_nextId {s0 s : Store} (hreach : Store.Reachable s0 s)
    (h0 : s0.carts = []) :
    ∀ cart ∈ s.carts, ∀ item ∈ cart.cartItems, item._id ≠ s.nextId := by
  have hfresh : s.FreshIds := by
    induction hreach with
    | init =>
      intro cart hcart
      rw [h0] at hcart
      cases hcart
    | step c user _ ih => exact Call.store_freshIds c user _ ih
  intro cart hcart item hitem
  exact Nat.ne_of_lt (hfresh cart hcart item hitem)

/-- C20 (add then delete is a round trip): when the user's cart exists and has no item of
product id `productId`, `productId` is found in the Product collection and the `_id` that
the store assigns to the new item is fresh in the cart, `addProductToCart` returns, the
following `deleteProductFromCart` returns, and afterwards the user's cart is the cart
before the add (items, quantities and order), the whole Carts collection and the Product
collection are those before the add, and neither call saves a user entity. -/
theorem add_then_delete_roundtrip (config : Config) (accepted : Bool) (user : User)
    (productId : String) (quantity : JSNumber) (s : Store) (cart : Cart) (product : Product)
    (hcart : Cart.findOne user.email s = some cart)
    (hnew : ∀ item ∈ cart.cartItems, item.product._id ≠ productId)
    (hprod : Product.findOne productId s = some product)
    (hfresh : ∀ item ∈ cart.cartItems, item._id ≠ s.nextId) :
    (addProductToCart config accepted user productId quantity s).result
      = .ok { cart with cartItems := cart.cartItems ++ [⟨s.nextId, product, quantity⟩] } ∧
    (deleteProductFromCart user productId
      (addProductToCart config accepted user productId quantity s).store).result
      = .ok .acknowledged ∧
    Cart.findOne user.email (deleteProductFromCart user productId
      (addProductToCart config accepted user productId quantity s).store).store = some cart ∧
    (deleteProductFromCart user productId
      (addProductToCart config accepted user productId quantity s).store).store.carts
      = s.carts ∧
    (deleteProductFromCart user productId
      (addProductToCart config accepted user productId quantity s).store).store.products
      = s.products ∧
    (Call.addProductToCart config accepted productId quantity).saved user s = none ∧
    (Call.deleteProductFromCart productId).saved user
      (addProductToCart config accepted user productId quantity s).store = none := by
  have hdup : ¬ ∃ item ∈ cart.cartItems, item.product._id = productId := by
    rintro ⟨item, hmem, hid⟩
    exact hnew item hmem hid
  have hemail : cart.email = user.email := Cart.findOne_email hcart
  have hpid : product._id = productId := Product.findOne_id hprod
  have hadd : addProductToCart config accepted user productId quantity s
      = ⟨.ok { cart with cartItems := cart.cartItems ++ [⟨s.nextId, product, quantity⟩] },
          Cart.save { cart with cartItems := cart.cartItems ++ [⟨s.nextId, product, quantity⟩] }
            { s with nextId := s.nextId + 1 }⟩ := by
    rw [addProductToCart_of_getCart config accepted user productId quantity s s cart
      (addProductToCart.getCart_of_cart config accepted user s cart hcart), if_neg hdup, hprod]
  have hfind1 : Cart.findOne user.email
      (Cart.save { cart with cartItems := cart.cartItems ++ [⟨s.nextId, product, quantity⟩] }
        { s with nextId := s.nextId + 1 })
      = some { cart with cartItems := cart.cartItems ++ [⟨s.nextId, product, quantity⟩] } :=
    Cart.findOne_save _ (show Cart.findOne user.email { s with nextId := s.nextId + 1 }
      = some cart from hcart) hemail
  have hfilter : (cart.cartItems ++ [(⟨s.nextId, product, quantity⟩ : CartItem)]).filter
      (fun item => decide (item.product._id = productId))
      = [⟨s.nextId, product, quantity⟩] := by
    rw [List.filter_append, List.filter_eq_nil_iff.mpr (fun a ha => by simpa using hnew a ha)]
    simp [hpid]
  have hkeep : (cart.cartItems ++ [(⟨s.nextId, product, quantity⟩ : CartItem)]).filter
      (fun item => decide (item._id ≠ s.nextId)) = cart.cartItems := by
    rw [List.filter_append, List.filter_eq_self.mpr (fun a ha => by simpa using hfresh a ha)]
    simp
  have hdel := deleteProductFromCart_of_cart user productId _ _ hfind1
  rw [hfilter] at hdel
  have hcarts : Cart.pull user.email s.nextId
      (Cart.replace { cart with cartItems := cart.cartItems ++ [⟨s.nextId, product, quantity⟩] }
        s.carts) = s.carts := by
    have hfound : s.carts.find? (fun d => decide (d.email = cart.email)) = some cart := by
      rw [hemail]
      exact hcart
    rw [← hemail]
    refine (Cart.pull_replace
      { cart with cartItems := cart.cartItems ++ [⟨s.nextId, product, quantity⟩] }
      s.nextId s.carts).trans ?_
    show Cart.replace
      { email := cart.email,
        cartItems := List.filter (fun item => decide (item._id ≠ s.nextId))
          (cart.cartItems ++ [(⟨s.nextId, product, quantity⟩ : CartItem)]),
        paymentOption := cart.paymentOption } s.carts = s.carts
    rw [hkeep]
    exact Cart.replace_self cart.email s.carts cart hfound
  rw [hadd]
  rw [hdel]
  refine ⟨rfl, rfl, ?_, hcarts, rfl, rfl, rfl⟩
  show Cart.findOne user.email
    { carts := Cart.pull user.email s.nextId
        (Cart.replace
          { cart with cartItems := cart.cartItems ++ [⟨s.nextId, product, quantity⟩] } s.carts),
      products := s.products, nextId := s.nextId + 1 } = some cart
  rw [hcarts]
  exact hcart

/-- Adding `p2` to the cart of `p1` and deleting it again: the three carts of the store
are as before. -/
theorem add_then_delete_roundtrip_witness :
    (addProductToCart exampleConfig true exampleUser400 "p2" 4 exampleStore3).result
      = .ok { exampleCart500 with
          cartItems := exampleCart500.cartItems ++ [⟨exampleStore3.nextId, exampleProductB, 4⟩] } ∧
    (deleteProductFromCart exampleUser400 "p2"
      (addProductToCart exampleConfig true exampleUser400 "p2" 4 exampleStore3).store).result
      = .ok .acknowledged ∧
    Cart.findOne exampleUser400.email (deleteProductFromCart exampleUser400 "p2"
      (addProductToCart exampleConfig true exampleUser400 "p2" 4 exampleStore3).store).store
      = some exampleCart500 ∧
    (deleteProductFromCart exampleUser400 "p2"
      (addProductToCart exampleConfig true exampleUser400 "p2" 4 exampleStore3).store).store.carts
      = exampleStore3.carts ∧
    (deleteProductFromCart exampleUser400 "p2"
      (addProductToCart exampleConfig true exampleUser400 "p2" 4
        exampleStore3).store).store.products
      = exampleStore3.products ∧
    (Call.addProductToCart exampleConfig true "p2" 4).saved exampleUser400 exampleStore3
      = none ∧
    (Call.deleteProductFromCart "p2").saved exampleUser400
      (addProductToCart exampleConfig true exampleUser400 "p2" 4 exampleStore3).store = none :=
  add_then_delete_roundtrip exampleConfig true exampleUser400 "p2" 4 exampleStore3
    exampleCart500 exampleProductB (by decide) (by decide) (by decide) (by decide)

/-! ## The wallet along a sequence of requests -/

theorem User.find?_save (u1 : User) (email : String) (h1 : u1.email = email) :
    ∀ (users : List User) (u : User),
      users.find? (fun d => decide (d.email = email)) = some u →
      (User.save u1 users).find? (fun d => decide (d.email = email)) = some u1
  | [], u, h => by simp at h
  | d :: ds, u, h => by
    by_cases hd : d.email = email
    · simp [User.save, hd, h1]
    · have hd1 : ¬ d.email = u1.email := by rw [h1]; exact hd
      have hrest : ds.find? (fun d => decide (d.email = email)) = some u := by
        simpa [List.find?_cons, hd] using h
      simp [User.save, hd1, List.find?_cons, hd, User.find?_save u1 email h1 ds u hrest]

/-- What `checkout` saves: nothing, or the user with the wallet lowered by the total of
the cart found, a total that is not greater than the wallet. -/
theorem checkout_saved (user : User) (s : Store) :
    Call.checkout.saved user s = none ∨
    ∃ (userCart : Cart) (user1 : User), Cart.findOne user.email s = some userCart ∧
      JSNumber.gt (checkout.cartTotal userCart.cartItems) user.walletMoney = false ∧
      Call.checkout.saved user s = some user1 ∧ user1.email = user.email ∧
      user1.walletMoney
        = JSNumber.sub user.walletMoney (checkout.cartTotal userCart.cartItems) := by
  cases hcart : Cart.findOne user.email s with
  | none =>
    left
    have hval : checkout user s = ⟨.error ⟨404, "User cart not found"⟩, user, s⟩ := by
      unfold checkout
      rw [hcart]
      rfl
    unfold Call.saved
    rw [hval]
  | some userCart =>
    have hval := checkout_of_cart user s userCart hcart
    by_cases h0 : userCart.cartItems = []
    · left
      rw [if_pos h0] at hval
      unfold Call.saved
      rw [hval]
    · rw [if_neg h0] at hval
      by_cases ha : user.hasSetNonDefaultAddress = false
      · left
        rw [if_pos ha] at hval
        unfold Call.saved
        rw [hval]
      · rw [if_neg ha] at hval
        by_cases hgt : JSNumber.gt (checkout.cartTotal userCart.cartItems) user.walletMoney = true
        · left
          rw [if_pos hgt] at hval
          unfold Call.saved
          rw [hval]
        · right
          rw [if_neg hgt] at hval
          refine ⟨userCart,
            { user with walletMoney :=
                JSNumber.sub user.walletMoney (checkout.cartTotal userCart.cartItems) },
            rfl, Bool.eq_false_iff.mpr hgt, ?_, rfl, rfl⟩
          unfold Call.saved
          rw [hval]

/-- The wallet of `email` after a request: the wallet before it, unless the request is a
`checkout` made by `email` that returns, which lowers it by the total of the cart found. -/
theorem World.exec_wallet (c : Call) (caller email : String) (w : World) :
    (w.exec c caller).wallet email = w.wallet email ∨
    (c = .checkout ∧ caller = email ∧ ∃ (user : User) (userCart : Cart),
      w.wallet email = some user.walletMoney ∧ Cart.findOne email w.store = some userCart ∧
      JSNumber.gt (checkout.cartTotal userCart.cartItems) user.walletMoney = false ∧
      (w.exec c caller).wallet email
        = some (JSNumber.sub user.walletMoney (checkout.cartTotal userCart.cartItems))) := by
  cases huser : w.users.find? (fun u => decide (u.email = caller)) with
  | none =>
    left
    rw [World.exec_of_none c caller w huser]
  | some user =>
    rw [World.exec_of_user c caller w user huser]
    cases c with
    | getCartByUser => exact Or.inl rfl
    | addProductToCart config accepted productId quantity => exact Or.inl rfl
    | updateProductInCart productId quantity => exact Or.inl rfl
    | deleteProductFromCart productId => exact Or.inl rfl
    | checkout =>
      rcases checkout_saved user w.store with
        hnone | ⟨userCart, user1, hcart, hgt, hsome, hemail1, hwallet1⟩
      · left
        rw [hnone]
        rfl
      · rw [hsome]
        have huemail : user.email = caller := User.find?_email huser
        have hemail : user1.email = caller := hemail1.trans huemail
        by_cases he : email = caller
        · right
          subst he
          refine ⟨rfl, rfl, user, userCart, ?_, ?_, hgt, ?_⟩
          · unfold World.wallet
            rw [huser]
            rfl
          · rw [← huemail]
            exact hcart
          · show Option.map User.walletMoney
              ((User.save user1 w.users).find? (fun u => decide (u.email = email))) = _
            rw [User.find?_save user1 email hemail w.users user huser, ← hwallet1]
            rfl
        · left
          have hne : email ≠ user1.email := fun h => he (h.trans hemail)
          show Option.map User.walletMoney
              ((User.save user1 w.users).find? (fun u => decide (u.email = email)))
            = Option.map User.walletMoney (w.users.find? (fun u => decide (u.email = email)))
          rw [← find?_filter_key_ne User.email hne (User.save user1 w.users),
            ← find?_filter_key_ne User.email hne w.users, User.filter_users_save]

/-- A call keeps the costs of the products embedded in the carts finite and not negative,
when the costs of the products of the collection are. -/
theorem Call.store_finiteCosts (c : Call) (user : User) (s : Store)
    (hcost : ∀ p ∈ s.products, p.cost.isFinite = true ∧ JSNumber.le 0 p.cost = true)
    (h : s.FiniteCosts) : (c.store user s).FiniteCosts := by
  intro cart hcart item hitem
  cases c with
  | getCartByUser =>
    have hs : (Call.getCartByUser.store user s) = s := getCartByUser_store user s
    rw [hs] at hcart
    exact h cart hcart item hitem
  | addProductToCart config accepted productId quantity =>
    rcases (addProductToCart_store config accepted user productId quantity s).2 cart hcart with
      hc | hc | ⟨d, product, id, hd, hprod, -, -, hc⟩
    · exact h cart hc item hitem
    · rw [hc] at hitem
      cases hitem
    · rw [hc] at hitem
      rcases List.mem_append.mp hitem with hi | hi
      · rcases hd with hd | hd
        · exact h d hd item hi
        · rw [hd] at hi
          cases hi
      · rw [List.mem_singleton.mp hi]
        exact hcost product hprod
  | updateProductInCart productId quantity =>
    rcases (updateProductInCart_store user productId quantity s).2.2 cart hcart with
      hc | ⟨d, hd, pre, it, post, hsplit, hc⟩
    · exact h cart hc item hitem
    · have hdn := h d hd
      rw [hsplit] at hdn
      rw [hc] at hitem
      rcases List.mem_append.mp hitem with hi | hi
      · exact hdn item (List.mem_append_left _ hi)
      · rcases List.mem_cons.mp hi with hi | hi
        · rw [hi]
          exact hdn it (List.mem_append_right _ (List.mem_cons_self _ _))
        · exact hdn item (List.mem_append_right _ (List.mem_cons_of_mem _ hi))
  | deleteProductFromCart productId =>
    rcases (deleteProductFromCart_store user productId s).2.2 cart hcart with
      hc | ⟨d, hd, id, hc⟩
    · exact h cart hc item hitem
    · rw [hc] at hitem
      exact h d hd item (List.mem_of_mem_filter hitem)
  | checkout =>
    rcases (checkout_store user s).2.2 cart hcart with hc | hc
    · exact h cart hc item hitem
    · rw [hc] at hitem
      cases hitem

/-- The store after a request is the store before it, or the store after the call made
for the user found. -/
theorem World.exec_store_cases (c : Call) (caller : String) (w : World) :
    (w.exec c caller).store = w.store ∨
      ∃ user : User, (w.exec c caller).store = c.store user w.store := by
  cases huser : w.users.find? (fun u => decide (u.email = caller)) with
  | none =>
    left
    rw [World.exec_of_none c caller w huser]
  | some user =>
    right
    rw [World.exec_of_user c caller w user huser]
    exact ⟨user, rfl⟩

/-- Along any sequence of requests the costs of the products, in the collection and in the
carts, stay finite and not negative. -/
theorem World.Reachable.finiteCosts {P : Call → Prop} {w0 w : World}
    (hreach : World.Reachable P w0 w)
    (hcost : ∀ p ∈ w0.store.products, p.cost.isFinite = true ∧ JSNumber.le 0 p.cost = true)
    (h0 : w0.store.FiniteCosts) :
    (∀ p ∈ w.store.products, p.cost.isFinite = true ∧ JSNumber.le 0 p.cost = true) ∧
      w.store.FiniteCosts := by
  induction hreach with
  | init => exact ⟨hcost, h0⟩
  | @step w1 c caller _ _ ih =>
    rcases World.exec_store_cases c caller w1 with hs | ⟨user, hs⟩
    · rw [hs]
      exact ih
    · rw [hs]
      refine ⟨?_, Call.store_finiteCosts c user w1.store ih.1 ih.2⟩
      rw [Call.store_products c user w1.store]
      exact ih.1

/-- A request keeps the wallet a double that is NaN or not negative. -/
theorem World.exec_wallet_nonNeg (c : Call) (caller email : String) (w : World)
    (h : ∀ m, w.wallet email = some m → m.IsDouble ∧ (m.isNaN = true ∨ m.NonNeg)) :
    ∀ m, (w.exec c caller).wallet email = some m → m.IsDouble ∧ (m.isNaN = true ∨ m.NonNeg) := by
  intro m hm
  rcases World.exec_wallet c caller email w with
    hsame | ⟨-, -, user, userCart, hold, -, hgt, hnew⟩
  · rw [hsame] at hm
    exact h m hm
  · rw [hnew] at hm
    cases hm
    exact ⟨JSNumber.add_isDouble _ _, JSNumber.sub_nonNeg _ _ (h _ hold).2 hgt⟩

/-- Along any sequence of requests the wallet stays a double that is NaN or not
negative. -/
theorem World.Reachable.wallet_nonNeg {P : Call → Prop} {w0 w : World} (email : String)
    (hreach : World.Reachable P w0 w)
    (h0 : ∀ m, w0.wallet email = some m → m.IsDouble ∧ (m.isNaN = true ∨ m.NonNeg)) :
    ∀ m, w.wallet email = some m → m.IsDouble ∧ (m.isNaN = true ∨ m.NonNeg) := by
  induction hreach with
  | init => exact h0
  | @step w1 c caller _ _ ih => exact World.exec_wallet_nonNeg c caller email w1 ih

/-- C15, as the claim states it, fails. From a world without carts, with a product of cost
100 and a user whose wallet is 0, the user adds the product with quantity -1 and checks
out: the total is -100, the balance guard passes and the wallet rises from 0 to 100. The
numbers that are not finite break it as well: a cost of `Infinity` with quantity 0, and a
cost of 0 with quantity `Infinity`, give the total NaN, which passes the balance guard and
leaves NaN in the wallet; and with `Infinity` in the wallet, a cost of 100 and the quantity
`2 ^ 1023` the total is `Infinity`, and the checkout leaves `Infinity - Infinity`, which is
NaN. NaN is neither less than or equal to the prior value nor non-negative. -/
theorem wallet_only_decremented_counterexample :
    ((∀ p ∈ exampleWorldEmpty.store.products, JSNumber.le 0 p.cost = true) ∧
      (∀ cart ∈ exampleWorldEmpty.store.carts, cart.cartItems = []) ∧
      exampleWorldEmpty.wallet "a@x.io" = some 0 ∧
      World.Reachable (fun _ => True) exampleWorldEmpty
        (exampleWorldEmpty.exec (.addProductToCart exampleConfig true "p1" (-1)) "a@x.io") ∧
      (exampleWorldEmpty.exec (.addProductToCart exampleConfig true "p1" (-1)) "a@x.io").wallet
        "a@x.io" = some 0 ∧
      ((exampleWorldEmpty.exec (.addProductToCart exampleConfig true "p1" (-1)) "a@x.io").exec
        .checkout "a@x.io").wallet "a@x.io" = some 100 ∧
      JSNumber.le 100 0 = false) ∧
    ((∀ p ∈ exampleWorldInf.store.products, JSNumber.le 0 p.cost = true) ∧
      (∀ cart ∈ exampleWorldInf.store.carts, cart.cartItems = []) ∧
      exampleWorldInf.wallet "a@x.io" = some 0 ∧
      ((exampleWorldInf.exec (.addProductToCart exampleConfig true "p8" 0) "a@x.io").exec
        .checkout "a@x.io").wallet "a@x.io" = some .nan ∧
      JSNumber.le .nan 0 = false ∧ JSNumber.le 0 .nan = false) ∧
    ((∀ p ∈ exampleWorldFree.store.products,
        p.cost.isFinite = true ∧ JSNumber.le 0 p.cost = true) ∧
      (∀ cart ∈ exampleWorldFree.store.carts, cart.cartItems = []) ∧
      exampleWorldFree.wallet "a@x.io" = some 0 ∧
      JSNumber.le 0 (.infinity false) = true ∧
      ((exampleWorldFree.exec (.addProductToCart exampleConfig true "p0" (.infinity false))
        "a@x.io").exec .checkout "a@x.io").wallet "a@x.io" = some .nan) ∧
    ((∀ p ∈ exampleWorldInfWallet.store.products,
        p.cost.isFinite = true ∧ JSNumber.le 0 p.cost = true) ∧
      (∀ cart ∈ exampleWorldInfWallet.store.carts, cart.cartItems = []) ∧
      exampleWorldInfWallet.wallet "a@x.io" = some (.infinity false) ∧
      JSNumber.le 0 (.infinity false) = true ∧
      exampleHuge.isFinite = true ∧ JSNumber.le 0 exampleHuge = true ∧
      ((exampleWorldInfWallet.exec (.addProductToCart exampleConfig true "p1" exampleHuge)
        "a@x.io").exec .checkout "a@x.io").wallet "a@x.io" = some .nan ∧
      JSNumber.le .nan (.infinity false) = false) :=
  ⟨⟨by decide, by decide, by decide, .step _ _ trivial .init, by decide, by decide, by decide⟩,
    ⟨by decide, by decide, by decide, by decide, by decide, by decide⟩,
    ⟨by decide, by decide, by decide, by decide, by decide⟩,
    ⟨by decide, by decide, by decide, by decide, by decide, by decide, by decide, by decide⟩⟩

/-- C15 (wallet is only ever decremented), amended: from a world in which the user's
`walletMoney` is a number that is not negative, every product cost is finite and not
negative and no cart has items, in every world reached by any sequence of requests
(1) the wallet is NaN or not negative; (2) `getCartByUser`, `addProductToCart`,
`updateProductInCart` and `deleteProductFromCart`, and the checkouts of other users, leave
it unchanged; and (3) a `checkout` of the user made while the wallet is finite and every
line of the user's cart has a finite quantity that is not negative leaves the wallet less
than or equal to its prior value and not negative. -/
theorem wallet_only_decremented (email : String) (w0 : World)
    (hcost : ∀ p ∈ w0.store.products, p.cost.isFinite = true ∧ JSNumber.le 0 p.cost = true)
    (hempty : ∀ cart ∈ w0.store.carts, cart.cartItems = [])
    (hwallet : ∀ m, w0.wallet email = some m → m.IsDouble ∧ JSNumber.le 0 m = true) :
    ∀ w, World.Reachable (fun _ => True) w0 w →
      (∀ m, w.wallet email = some m → m.isNaN = true ∨ JSNumber.le 0 m = true) ∧
      (∀ (c : Call) (caller : String), c ≠ Call.checkout ∨ caller ≠ email →
        (w.exec c caller).wallet email = w.wallet email) ∧
      (∀ (m : JSNumber), w.wallet email = some m → m.isFinite = true →
        (∀ userCart, Cart.findOne email w.store = some userCart →
          ∀ item ∈ userCart.cartItems,
            item.quantity.isFinite = true ∧ JSNumber.le 0 item.quantity = true) →
        ∃ m1, (w.exec .checkout email).wallet email = some m1 ∧
          JSNumber.le m1 m = true ∧ JSNumber.le 0 m1 = true) := by
  intro w hreach
  have h0 : w0.store.FiniteCosts := by
    intro cart hcart item hitem
    rw [hempty cart hcart] at hitem
    cases hitem
  have hw0 : ∀ m, w0.wallet email = some m → m.IsDouble ∧ (m.isNaN = true ∨ m.NonNeg) :=
    fun m hm => ⟨(hwallet m hm).1, Or.inr ((JSNumber.le_zero_iff m).mp (hwallet m hm).2)⟩
  have hw := hreach.wallet_nonNeg email hw0
  obtain ⟨-, hcosts⟩ := hreach.finiteCosts hcost h0
  refine ⟨?_, ?_, ?_⟩
  · intro m hm
    rcases (hw m hm).2 with h | h
    · exact Or.inl h
    · exact Or.inr ((JSNumber.le_zero_iff m).mpr h)
  · intro c caller hc
    rcases World.exec_wallet c caller email w with hsame | ⟨hck, hcaller, -⟩
    · exact hsame
    · rcases hc with hc | hc
      · exact absurd hck hc
      · exact absurd hcaller hc
  · intro m hm hfin hq
    have hnan : m.isNaN = false := by
      cases m with
      | nan => simp [JSNumber.isFinite] at hfin
      | infinity s => rfl
      | finite s n e => rfl
    have hnn : m.NonNeg := by
      rcases (hw m hm).2 with h | h
      · rw [hnan] at h
        cases h
      · exact h
    rcases World.exec_wallet .checkout email email w with
      hsame | ⟨-, -, user, userCart, hold, hcart, hgt, hnew⟩
    · exact ⟨m, hsame.trans hm, JSNumber.le_self m hnan, (JSNumber.le_zero_iff m).mpr hnn⟩
    · rw [hold] at hm
      cases hm
      have htotal : (checkout.cartTotal userCart.cartItems).NonNeg := by
        apply checkout.cartTotal_nonNeg
        intro item hitem
        have hc := hcosts userCart (Cart.mem_of_findOne hcart) item hitem
        have hqi := hq userCart hcart item hitem
        exact ⟨⟨hc.1, (JSNumber.le_zero_iff _).mp hc.2⟩, hqi.1,
          (JSNumber.le_zero_iff _).mp hqi.2⟩
      have hle := JSNumber.sub_le user.walletMoney (checkout.cartTotal userCart.cartItems)
        hfin (hw _ hold).1 hnn htotal hgt
      refine ⟨_, hnew, hle, ?_⟩
      rcases JSNumber.sub_nonNeg user.walletMoney (checkout.cartTotal userCart.cartItems)
        (Or.inr hnn) hgt with h | h
      · rw [JSNumber.isNaN_of_le _ _ hle] at h
        cases h
      · exact (JSNumber.le_zero_iff _).mpr h

/-- A user with 500 adds a product of cost 100 with quantity -1, updates the quantity to 3
and checks out: the wallet after the checkout, 200, is at most 500 and not negative. -/
theorem wallet_only_decremented_witness :
    (((exampleWorldRich.exec (.addProductToCart exampleConfig true "p1" (-1)) "a@x.io").exec
        (.updateProductInCart "p1" 3) "a@x.io").exec .checkout "a@x.io").wallet "a@x.io"
      = some 200 ∧
    ∃ m1, (((exampleWorldRich.exec (.addProductToCart exampleConfig true "p1" (-1)) "a@x.io").exec
        (.updateProductInCart "p1" 3) "a@x.io").exec .checkout "a@x.io").wallet "a@x.io"
        = some m1 ∧
      JSNumber.le m1 500 = true ∧ JSNumber.le 0 m1 = true :=
  ⟨by decide,
    (wallet_only_decremented "a@x.io" exampleWorldRich (by decide) (by decide) (by decide)
      ((exampleWorldRich.exec (.addProductToCart exampleConfig true "p1" (-1)) "a@x.io").exec
        (.updateProductInCart "p1" 3) "a@x.io")
      (.step _ _ trivial (.step _ _ trivial .init))).2.2 500 (by decide) (by decide)
      (by decide)⟩

end QKart
